import Mathlib

/-! Owlto focuser drivers: handshake, move, poll and abort sequencing.

A shallow embedding of the three driver variants of the repository

* `src/drivers/focuser/owltofocus.cpp` (commands `<GPOS>`, answers `[n]`),
* `src/libindi/drivers/focuser/williamoptics_owlto.cpp` (commands `P:`, answers `(n)`),
* `src/libindi/drivers/focuser/owltofocus.cpp` (commands `P:#`, answers `:n#`),

followed by theorems about them.

Conventions of the embedding.

* The driver object is the record `Driver`; every member function is a function
  from `Driver` to its result and the new `Driver`.
* The serial line is an environment `Tty`: the outcome of the k-th call of
  `tty_write_string` and of the k-th call of `tty_nread_section`.  The driver
  record counts the calls it made and keeps the trace of port operations.
* `double` members (`FocusAbsPosN[0].value`, `lastPos`, `targetPos`, ...) only
  ever hold integers of magnitude far below 2^53, on which `double` arithmetic
  is exact; they are modelled by `Int`.
* C strings are `String`s; parsing works on their list of characters.
-/

namespace Owlto

/-! ## Data model -/

/-- The three driver variants, named after the framing of the device answers. -/
inductive Dialect
  | bracket
  | paren
  | colon
  deriving DecidableEq, Repr

/-- Property states of the host framework. -/
inductive IPState
  | IPS_IDLE
  | IPS_OK
  | IPS_BUSY
  | IPS_ALERT
  deriving DecidableEq, Repr

/-- Direction of a relative or timed move. -/
inductive FocusDirection
  | FOCUS_INWARD
  | FOCUS_OUTWARD
  deriving DecidableEq, Repr

/-- Operations the driver performs on the serial port. -/
inductive TtyOp
  | flush
  | write (cmd : String)
  | read
  deriving DecidableEq, Repr

/-- Property vectors whose change is sent to clients (IDSetNumber, IDSetSwitch). -/
inductive Property
  | FocusAbsPosNP
  | FocusRelPosNP
  | FocusTimerNP
  | FocusMaxPosNP
  | StallguardThresNP
  | MoveCurrentNP
  | CalibrationSP
  deriving DecidableEq, Repr

/-- The serial line as the driver sees it: `writeOk k` tells whether the k-th
`tty_write_string` returns `TTY_OK`, `readRes k` is the buffer filled by the
k-th `tty_nread_section`, or `none` when that call fails or times out. -/
structure Tty where
  writeOk : Nat → Bool
  readRes : Nat → Option String

/-- The driver object.  `absPos`, `absMax` are `FocusAbsPosN[0].value` and
`FocusAbsPosN[0].max`; `maxPos` is `FocusMaxPosN[0].value`; `timerValue` is
`FocusTimerN[0].value`; `absS`, `relS`, `timerS`, `maxS` are the states of
`FocusAbsPosNP`, `FocusRelPosNP`, `FocusTimerNP`, `FocusMaxPosNP`.
`sgThres` and `sgS` are `StallguardThresN[0].value` and the state of
`StallguardThresNP`; `calibration` holds the on/off states of the switches of
`CalibrationSP`; `defined` lists the driver-specific properties currently
defined to the clients.
`timers` are the pending one-shot callbacks added by `IEAddTimer`, `polls`
counts `SetTimer(POLLMS)`, `notes` are the notifications sent so far,
`nWrites`, `nReads` and `trace` record the port operations made so far. -/
structure Driver where
  connected : Bool
  absPos : Int
  absMax : Int
  maxPos : Int
  timerValue : Int
  absS : IPState
  relS : IPState
  timerS : IPState
  maxS : IPState
  targetPos : Int
  lastPos : Int
  sgThres : Int
  sgS : IPState
  calibration : List Bool
  defined : List Property
  timers : List Nat
  polls : Nat
  notes : List Property
  nWrites : Nat
  nReads : Nat
  trace : List TtyOp
  deriving DecidableEq, Repr

/-! ## C library: `sscanf` with one `%d`, `snprintf` with one `%06d` -/

/-- The `isspace` of the C locale. -/
def isspace (c : Char) : Bool :=
  c.toNat = 32 || (9 ≤ c.toNat && c.toNat ≤ 13)

/-- Value of a run of decimal digits, most significant first. -/
def digitsValue (ds : List Char) : Nat :=
  ds.foldl (fun a c => 10 * a + (c.toNat - 48)) 0

/-- Saturation of `strtol` to the range of a 64-bit `long`. -/
def strtolSat (v : Int) : Int :=
  max (-(2 : Int) ^ 63) (min ((2 : Int) ^ 63 - 1) v)

/-- Two's complement reading of an integer as an `int32_t`. -/
def wrapInt32 (v : Int) : Int :=
  (v + (2 : Int) ^ 31) % (2 : Int) ^ 32 - (2 : Int) ^ 31

/-- The `%d` directive of `sscanf`: skip white space, read an optional sign and
a non-empty run of decimal digits, store the value in an `int32_t`.  `none` is
a matching or input failure (nothing stored).  A value outside `int32_t` is
stored the way glibc does (the `long` of `strtol`, truncated); the C standard
leaves that case undefined. -/
def scanInt (cs : List Char) : Option Int :=
  let cs1 := cs.dropWhile isspace
  let neg := cs1.head? = some '-'
  let cs2 := if cs1.head? = some '-' ∨ cs1.head? = some '+' then cs1.tail else cs1
  let ds := cs2.takeWhile Char.isDigit
  if ds = [] then none
  else some (wrapInt32 (strtolSat (if neg then -(digitsValue ds : Int) else (digitsValue ds : Int))))

/-- The call `sscanf(res, fmt, &pos)` for the formats `"[%d]"`, `"(%d)"` and
`":%d#"`: `lead` is the literal before `%d`.  The result is `some pos` when the
call returns 1 and `none` when it returns 0 or EOF.  The literal after `%d`
cannot change the return value, which counts the assignments made before it. -/
def sscanfInt (lead : Char) (res : String) : Option Int :=
  match res.data with
  | [] => none
  | c :: r => if c = lead then scanInt r else none

/-- Left padding with the character 0 up to width `w`. -/
def zeroPad (w : Nat) (ds : List Char) : List Char :=
  List.replicate (w - ds.length) '0' ++ ds

/-- The directive `%06d` of `snprintf` applied to a signed value. -/
def fmt06d (v : Int) : String :=
  if v < 0 then String.mk ('-' :: zeroPad 5 (Nat.toDigits 10 v.natAbs))
  else String.mk (zeroPad 6 (Nat.toDigits 10 v.natAbs))

/-- A `uint32_t` argument printed with `%06d`: the 32 bits are read as an `int`. -/
def fmt06dU32 (position : Nat) : String :=
  fmt06d (wrapInt32 (position % 2 ^ 32))

/-- Conversion of a `double` holding the integer `x` to `uint32_t`.  Out of
range the C++ standard leaves the result undefined; the model takes the value
x86-64 produces (the low 32 bits). -/
def toUInt32 (x : Int) : Nat :=
  (x % (2 : Int) ^ 32).toNat

/-- Conversion of a `double` holding the integer `x` to `int32_t`.  Out of
range the C++ standard leaves the result undefined; the model takes the value
x86-64 produces (the smallest `int32_t`). -/
def toInt32 (x : Int) : Int :=
  if -(2 : Int) ^ 31 ≤ x ∧ x < (2 : Int) ^ 31 then x else -(2 : Int) ^ 31

/-! ## Wire protocol of the three variants -/

/-- The literal in front of `%d` in the answer format. -/
def Dialect.lead : Dialect → Char
  | .bracket => '['
  | .paren => '('
  | .colon => ':'

/-- The literal after `%d` in the answer format. -/
def Dialect.close : Dialect → Char
  | .bracket => ']'
  | .paren => ')'
  | .colon => '#'

/-- The get-position command. -/
def Dialect.getPos : Dialect → String
  | .bracket => "<GPOS>"
  | .paren => "P:"
  | .colon => "P:#"

/-- The is-moving command. -/
def Dialect.getMoving : Dialect → String
  | .bracket => "<GMOV>"
  | .paren => "IM:"
  | .colon => "IM:#"

/-- The answer `moving` to the is-moving command. -/
def Dialect.movingYes : Dialect → String
  | .bracket => "[1]"
  | .paren => "(1)"
  | .colon => ":1#"

/-- The answer `not moving` to the is-moving command. -/
def Dialect.movingNo : Dialect → String
  | .bracket => "[0]"
  | .paren => "(0)"
  | .colon => ":0#"

/-- The abort command. -/
def Dialect.abort : Dialect → String
  | .bracket => "<ABRT>"
  | .paren => "A:"
  | .colon => "A:#"

/-- The sync command for `ticks`. -/
def Dialect.sync (d : Dialect) (ticks : Nat) : String :=
  match d with
  | .bracket => "<SPOS" ++ fmt06dU32 ticks ++ ">"
  | .paren => "SP:" ++ fmt06dU32 ticks
  | .colon => "SP:" ++ fmt06dU32 ticks ++ "#"

/-- The set-target command for `position`. -/
def Dialect.setTarget (d : Dialect) (position : Nat) : String :=
  match d with
  | .bracket => "<STAR" ++ fmt06dU32 position ++ ">"
  | .paren => "M:" ++ fmt06dU32 position
  | .colon => "STARG:" ++ fmt06dU32 position ++ "#"

/-- The get-max-position command (the colon variant has no such query). -/
def Dialect.getMax : Dialect → String
  | .bracket => "<GMXP>"
  | .paren => "MP:"
  | .colon => ""

/-- The start-motion command of the two variants that have one. -/
def Dialect.startMove : Dialect → String
  | .bracket => "<SMOV>"
  | .paren => ""
  | .colon => "SMOV:#"

/-! ## The driver -/

/-- Send a command (`sendCommand`): flush, write `cmd`; with a result buffer
(`wantRes`), read the answer and flush again.  Returns success and the buffer
(empty unless the read succeeded: no caller looks at it after a failure). -/
def sendCommand (t : Tty) (cmd : String) (wantRes : Bool) (s : Driver) :
    Bool × String × Driver :=
  let s1 := { s with trace := s.trace ++ [TtyOp.flush, TtyOp.write cmd],
                     nWrites := s.nWrites + 1 }
  if t.writeOk s.nWrites = false then (false, "", s1)
  else if wantRes = false then (true, "", s1)
  else
    let s2 := { s1 with trace := s1.trace ++ [TtyOp.read], nReads := s1.nReads + 1 }
    match t.readRes s.nReads with
    | none => (false, "", s2)
    | some r => (true, r, { s2 with trace := s2.trace ++ [TtyOp.flush] })

/-- The position query of `Ack` and what its `sscanf` stores in `pos`:
`none` when the command fails or nothing is converted. -/
def ackScan (d : Dialect) (t : Tty) (s : Driver) : Option Int × Driver :=
  let r := sendCommand t d.getPos true s
  if r.1 = false then (none, r.2.2)
  else (sscanfInt d.lead r.2.1, r.2.2)

/-- The member `Ack`: true when the query succeeds and `sscanf` returns more than 0. -/
def Ack (d : Dialect) (t : Tty) (s : Driver) : Bool × Driver :=
  let r := ackScan d t s
  (r.1.isSome, r.2)

/-- The member `Handshake`: the result of `Ack` (the rest is logging). -/
def Handshake (d : Dialect) (t : Tty) (s : Driver) : Bool × Driver :=
  let r := Ack d t s
  if r.1 then (true, r.2) else (false, r.2)

/-- The member `readPosition`. -/
def readPosition (d : Dialect) (t : Tty) (s : Driver) : Bool × Driver :=
  let r := sendCommand t d.getPos true s
  if r.1 = false then (false, r.2.2)
  else
    match sscanfInt d.lead r.2.1 with
    | some pos => (true, { r.2.2 with absPos := pos })
    | none => (false, r.2.2)

/-- The member `isMoving`. -/
def isMoving (d : Dialect) (t : Tty) (s : Driver) : Bool × Driver :=
  let r := sendCommand t d.getMoving true s
  if r.1 = false then (false, r.2.2)
  else if r.2.1 = d.movingYes then (true, r.2.2)
  else if r.2.1 = d.movingNo then (false, r.2.2)
  else (false, r.2.2)

/-- The member `SyncFocuser`. -/
def SyncFocuser (d : Dialect) (t : Tty) (ticks : Nat) (s : Driver) : Bool × Driver :=
  let r := sendCommand t (d.sync ticks) false s
  (r.1, r.2.2)

/-- The member `AbortFocuser`. -/
def AbortFocuser (d : Dialect) (t : Tty) (s : Driver) : Bool × Driver :=
  let r := sendCommand t d.abort false s
  (r.1, r.2.2)

/-- The member `MoveFocuser(uint32_t position)`.  The bracket and colon
variants set the target (reading the answer) and then start the motion; the
parenthesis variant sends the single command `M:` without reading. -/
def MoveFocuser (d : Dialect) (t : Tty) (position : Nat) (s : Driver) : Bool × Driver :=
  match d with
  | .paren =>
    let r := sendCommand t (d.setTarget position) false s
    if r.1 = false then (false, r.2.2) else (true, r.2.2)
  | _ =>
    let r := sendCommand t (d.setTarget position) true s
    if r.1 = false then (false, r.2.2)
    else
      let r2 := sendCommand t d.startMove false r.2.2
      if r2.1 = false then (false, r2.2.2) else (true, r2.2.2)

/-- The member `MoveAbsFocuser`. -/
def MoveAbsFocuser (d : Dialect) (t : Tty) (targetTicks : Nat) (s : Driver) :
    IPState × Driver :=
  let s1 := { s with targetPos := (targetTicks : Int) }
  let r := MoveFocuser d t s1.targetPos.toNat s1
  if r.1 = false then (IPState.IPS_ALERT, r.2) else (IPState.IPS_BUSY, r.2)

/-- The position `MoveRelFocuser` asks for: current position minus or plus
`ticks`, converted to `int32_t`, clamped with
`std::max(0, std::min(static_cast<int32_t>(FocusAbsPosN[0].max), newPosition))`. -/
def relTarget (s : Driver) (dir : FocusDirection) (ticks : Nat) : Int :=
  let newPosition :=
    if dir = FocusDirection.FOCUS_INWARD then toInt32 (s.absPos - (ticks : Int))
    else toInt32 (s.absPos + (ticks : Int))
  max 0 (min (toInt32 s.absMax) newPosition)

/-- The member `MoveRelFocuser`. -/
def MoveRelFocuser (d : Dialect) (t : Tty) (dir : FocusDirection) (ticks : Nat)
    (s : Driver) : IPState × Driver :=
  let r := MoveFocuser d t (relTarget s dir ticks).toNat s
  if r.1 = false then (IPState.IPS_ALERT, r.2) else (IPState.IPS_BUSY, r.2)

/-- The member `timedMoveCallback`.  The parenthesis variant has the three
notifications commented out. -/
def timedMoveCallback (d : Dialect) (t : Tty) (s : Driver) : Driver :=
  let s1 := (AbortFocuser d t s).2
  let s2 := { s1 with absS := IPState.IPS_IDLE, relS := IPState.IPS_IDLE,
                      timerS := IPState.IPS_IDLE, timerValue := 0 }
  match d with
  | .paren => s2
  | _ => { s2 with notes := s2.notes ++
            [Property.FocusAbsPosNP, Property.FocusRelPosNP, Property.FocusTimerNP] }

/-- First block of `TimerHit`: read the position and, when it is more than 5
ticks away from `lastPos`, notify the absolute position and update `lastPos`. -/
def pollPosition (d : Dialect) (t : Tty) (s : Driver) : Driver :=
  let r := readPosition d t s
  if r.1 = true ∧ 5 < |r.2.lastPos - r.2.absPos| then
    { r.2 with notes := r.2.notes ++ [Property.FocusAbsPosNP], lastPos := r.2.absPos }
  else r.2

/-- Second block of `TimerHit`: when a move is pending and `isMoving` returns
false, set both states to Ok, notify both properties and update `lastPos`. -/
def pollMotion (d : Dialect) (t : Tty) (s : Driver) : Driver :=
  if s.absS = IPState.IPS_BUSY ∨ s.relS = IPState.IPS_BUSY then
    let m := isMoving d t s
    if m.1 = false then
      { m.2 with absS := IPState.IPS_OK, relS := IPState.IPS_OK,
                 notes := m.2.notes ++ [Property.FocusAbsPosNP, Property.FocusRelPosNP],
                 lastPos := m.2.absPos }
    else m.2
  else s

/-- The member `TimerHit`: nothing but rearming the timer when not connected,
otherwise the two blocks above and rearming the timer. -/
def TimerHit (d : Dialect) (t : Tty) (s : Driver) : Driver :=
  if s.connected = false then { s with polls := s.polls + 1 }
  else
    let s2 := pollMotion d t (pollPosition d t s)
    { s2 with polls := s2.polls + 1 }

/-- The member `MoveFocuser(FocusDirection dir, int speed, uint16_t duration)`,
the timed move: move to 0 (inward) or to `FocusMaxPosN[0].value` (outward),
ignoring the result of that move, add a one-shot timer for `duration` and
return Busy.  The speed is unused. -/
def MoveFocuserTimed (d : Dialect) (t : Tty) (dir : FocusDirection) (_speed : Int)
    (duration : Nat) (s : Driver) : IPState × Driver :=
  let r :=
    if dir = FocusDirection.FOCUS_INWARD then MoveFocuser d t 0 s
    else MoveFocuser d t (toUInt32 s.maxPos) s
  (IPState.IPS_BUSY, { r.2 with timers := r.2.timers ++ [duration] })

/-- The member `readMaxPosition` (bracket and parenthesis variants).  The
parenthesis variant scans into a `uint32_t`, the bracket variant into an
`int32_t`. -/
def readMaxPosition (d : Dialect) (t : Tty) (s : Driver) : Bool × Driver :=
  let r := sendCommand t d.getMax true s
  if r.1 = false then (false, r.2.2)
  else
    match sscanfInt d.lead r.2.1 with
    | some steps =>
      (true, { r.2.2 with
                 maxPos := (match d with
                            | .paren => steps % (2 : Int) ^ 32
                            | _ => steps),
                 maxS := IPState.IPS_OK })
    | none => (false, r.2.2)

/-- The member `readStallguardThres` (bracket variant only). -/
def readStallguardThres (t : Tty) (s : Driver) : Bool × Driver :=
  let r := sendCommand t "<GSGV>" true s
  if r.1 = false then (false, r.2.2)
  else
    match sscanfInt '[' r.2.1 with
    | some thres => (true, { r.2.2 with sgThres := thres, sgS := IPState.IPS_OK })
    | none => (false, r.2.2)

/-- The member `GetFocusParams`.  The bracket variant resets the calibration
switches and reads position, maximum position and stallguard threshold, each
notified when read; the parenthesis variant reads position and maximum
position; the colon variant has no such member. -/
def GetFocusParams (d : Dialect) (t : Tty) (s : Driver) : Driver :=
  match d with
  | .colon => s
  | .paren =>
    let r1 := readPosition d t s
    let s1 := if r1.1 = true then
        { r1.2 with notes := r1.2.notes ++ [Property.FocusAbsPosNP] } else r1.2
    let r2 := readMaxPosition d t s1
    if r2.1 = true then { r2.2 with notes := r2.2.notes ++ [Property.FocusMaxPosNP] }
    else r2.2
  | .bracket =>
    let s0 := { s with calibration := s.calibration.map (fun _ => false) }
    let r1 := readPosition d t s0
    let s1 := if r1.1 = true then
        { r1.2 with notes := r1.2.notes ++ [Property.FocusAbsPosNP] } else r1.2
    let r2 := readMaxPosition d t s1
    let s2 := if r2.1 = true then
        { r2.2 with notes := r2.2.notes ++ [Property.FocusMaxPosNP] } else r2.2
    let r3 := readStallguardThres t s2
    if r3.1 = true then { r3.2 with notes := r3.2.notes ++ [Property.StallguardThresNP] }
    else r3.2

/-- The framework calls `defineSwitch` and `defineNumber`: the property
becomes known to the clients. -/
def defineProperty (p : Property) (s : Driver) : Driver :=
  { s with defined := if p ∈ s.defined then s.defined else s.defined ++ [p] }

/-- The framework call `deleteProperty`: the property is withdrawn. -/
def deleteProperty (p : Property) (s : Driver) : Driver :=
  { s with defined := s.defined.filter (fun q => q ≠ p) }

/-- The member `updateProperties`, without the call of the base class (which
handles the standard focuser properties only).  It always returns true. -/
def updateProperties (d : Dialect) (t : Tty) (s : Driver) : Bool × Driver :=
  match d with
  | .bracket =>
    if s.connected = true then
      (true, GetFocusParams d t
        (defineProperty Property.MoveCurrentNP
          (defineProperty Property.StallguardThresNP
            (defineProperty Property.CalibrationSP s))))
    else
      (true, deleteProperty Property.MoveCurrentNP
        (deleteProperty Property.CalibrationSP s))
  | .paren =>
    if s.connected = true then (true, GetFocusParams d t s) else (true, s)
  | .colon =>
    if s.connected = true then (true, defineProperty Property.CalibrationSP s)
    else (true, deleteProperty Property.CalibrationSP s)

/-! ## The calibration switch array -/

/-- A switch of the host framework (`ISwitch`): name, label and state
(`true` for `ISS_ON`). -/
structure ISwitch where
  name : String
  label : String
  s : Bool
  deriving DecidableEq, Repr

/-- The declared length of the member array `ISwitch CalibrationS[1]` in
`src/drivers/focuser/owltofocus.h`. -/
def CalibrationS_length : Nat := 1

/-- First enumerator of the anonymous enum of the class. -/
def CALIBRATION_START : Nat := 0

/-- Second enumerator of the anonymous enum of the class. -/
def CALIBRATION_RESET : Nat := 1

/-- The call `IUFillSwitch(&arr[i], name, label, ISS_OFF)` on an array: the
element `i` is overwritten; `none` when `i` is not within the array. -/
def IUFillSwitch (arr : List ISwitch) (i : Nat) (name label : String) :
    Option (List ISwitch) :=
  if i < arr.length then some (arr.set i { name := name, label := label, s := false })
  else none

/-- The call `IUFillSwitchVector(&svp, arr, nsp, ...)`: the vector is made of
the first `nsp` elements of the array; `none` when the array has fewer. -/
def IUFillSwitchVector (arr : List ISwitch) (nsp : Nat) : Option (List ISwitch) :=
  if nsp ≤ arr.length then some (arr.take nsp) else none

/-- The calibration part of `initProperties` on the array `CalibrationS`: the
bracket variant fills the elements `CALIBRATION_START` and `CALIBRATION_RESET`
and registers 2 elements, the colon variant fills `CALIBRATION_START` and
registers 1 element, the parenthesis variant has no calibration switch.  The
result is the registered vector, or `none` for an access outside the array. -/
def initCalibration (d : Dialect) (arr : List ISwitch) : Option (List ISwitch) :=
  match d with
  | .bracket =>
    (IUFillSwitch arr CALIBRATION_START "CALIBRATION_START" "Start Calibration").bind
      (fun a1 =>
        (IUFillSwitch a1 CALIBRATION_RESET "CALIBRATION_RESET" "Reset Calibration").bind
          (fun a2 => IUFillSwitchVector a2 2))
  | .colon =>
    (IUFillSwitch arr CALIBRATION_START "CALIBRATION_START" "Start Calibration").bind
      (fun a1 => IUFillSwitchVector a1 1)
  | .paren => some []

/-- The member `initProperties`, which always returns true; `none` stands for
an access outside `CalibrationS`.  `len` is the declared length of
`CalibrationS` (`CalibrationS_length` for the bracket variant; the header of
the colon variant is not among the sources).  Besides the calibration switches
it sets the range and value of the absolute position (maximum 100000 and
position 50000, or 300000 and 0 in the parenthesis variant) and, in the bracket
variant, the stallguard threshold 0 with state Idle. -/
def initProperties (d : Dialect) (len : Nat) (s : Driver) : Option Driver :=
  match initCalibration d (List.replicate len { name := "", label := "", s := false }) with
  | none => none
  | some sw =>
    match d with
    | .bracket =>
      some { s with calibration := sw.map (fun x => x.s), absMax := 100000, absPos := 50000,
                    sgThres := 0, sgS := IPState.IPS_IDLE }
    | .colon =>
      some { s with calibration := sw.map (fun x => x.s), absMax := 100000, absPos := 50000 }
    | .paren =>
      some { s with absMax := 300000, absPos := 0 }

/-! ## Observations on a run -/

/-- The command strings written to the port, in order. -/
def writtenCmds : List TtyOp → List String
  | [] => []
  | TtyOp.write c :: r => c :: writtenCmds r
  | _ :: r => writtenCmds r

/-- The number of reads made on the port. -/
def readCount : List TtyOp → Nat
  | [] => 0
  | TtyOp.read :: r => readCount r + 1
  | _ :: r => readCount r

/-- The port operations made between the states `s` and `s2`. -/
def newOps (s s2 : Driver) : List TtyOp :=
  s2.trace.drop s.trace.length

/-- The notifications sent between the states `s` and `s2`. -/
def emitted (s s2 : Driver) : List Property :=
  s2.notes.drop s.notes.length

/-- Every write and every read made between the states `s` and `s2` succeeded. -/
def allOk (t : Tty) (s s2 : Driver) : Bool :=
  (List.range (s2.nWrites - s.nWrites)).all (fun i => t.writeOk (s.nWrites + i)) &&
  (List.range (s2.nReads - s.nReads)).all (fun i => (t.readRes (s.nReads + i)).isSome)

/-! ## Device answers

The definitions below describe answers of the device, the input of the
handshake, and are not part of the drivers. -/

/-- `OWLTO_RES`, the size of the answer buffer, in both headers. -/
def OWLTO_RES : Nat := 32

/-- `OWLTO_DEL` of `src/drivers/focuser/owltofocus.h`, the stop character of
the reads of the bracket variant. -/
def OWLTO_DEL_bracket : Char := ']'

/-- `OWLTO_DEL` of `src/libindi/drivers/focuser/williamoptics_owlto.h`, the
stop character of the reads of the parenthesis variant: the line feed. -/
def OWLTO_DEL_paren : Char := Char.ofNat 10

/-- The buffers a successful `tty_nread_section(fd, res, OWLTO_RES, del, ...)`
can deliver: the bytes received up to and including the first stop character
`del`, at most `OWLTO_RES` of them.  The stop character stays in the buffer
(the bracket variant compares the buffer with `[1]`, its stop character
included). -/
def delivered (del : Char) (res : String) : Bool :=
  decide (res.data.length ≤ OWLTO_RES) && res.data.getLast? == some del &&
    !(res.data.dropLast.contains del)

/-- Decimal text of an integer: a minus sign for a negative one, then the digits. -/
def intChars (n : Int) : List Char :=
  if n < 0 then '-' :: Nat.toDigits 10 n.natAbs else Nat.toDigits 10 n.natAbs

/-- The framing of the integer `n` in the answers of a variant:
`[n]`, `(n)` or `:n#`. -/
def frame (d : Dialect) (n : Int) : String :=
  String.mk (d.lead :: (intChars n ++ [d.close]))

/-- An optionally signed, non-empty run of decimal digits. -/
def isDecimal (cs : List Char) : Bool :=
  let ds := if cs.head? = some '-' ∨ cs.head? = some '+' then cs.tail else cs
  !ds.isEmpty && ds.all Char.isDigit

/-- The exact answer pattern: opening delimiter, decimal integer, closing
delimiter, and nothing else. -/
def exactPattern (d : Dialect) (res : String) : Bool :=
  match res.data with
  | [] => false
  | c :: r => c == d.lead && r.getLast? == some d.close && isDecimal r.dropLast

/-- What the `sscanf` of the drivers needs of an answer: the opening
delimiter, then optional white space, an optional sign and at least one decimal
digit; whatever follows the digits is free. -/
def IntPrefixed (d : Dialect) (res : String) : Prop :=
  ∃ ws sg ds rest, res.data = d.lead :: (ws ++ (sg ++ (ds ++ rest))) ∧
    (∀ c ∈ ws, isspace c = true) ∧ (sg = [] ∨ sg = ['-'] ∨ sg = ['+']) ∧
    ds ≠ [] ∧ ∀ c ∈ ds, c.isDigit = true

/-! ## Concrete states and lines used in examples -/

/-- The driver right after `initProperties` of the bracket variant
(position 50000, configured maximum 100000), connected, with a device that
reported the maximum position `maxPos`. -/
def initDriver (maxPos : Int) : Driver :=
  { connected := true, absPos := 50000, absMax := 100000, maxPos := maxPos,
    timerValue := 0,
    absS := IPState.IPS_IDLE, relS := IPState.IPS_IDLE, timerS := IPState.IPS_IDLE,
    maxS := IPState.IPS_OK, targetPos := 0, lastPos := 0,
    sgThres := 0, sgS := IPState.IPS_IDLE, calibration := [false, false], defined := [],
    timers := [], polls := 0,
    notes := [], nWrites := 0, nReads := 0, trace := [] }

/-- A line on which every write succeeds and every read returns `res`. -/
def ttyAnswering (res : String) : Tty :=
  { writeOk := fun _ => true, readRes := fun _ => some res }

/-- A line on which every write and every read fails. -/
def ttyDead : Tty :=
  { writeOk := fun _ => false, readRes := fun _ => none }

/-- A line on which every write succeeds, the first read returns `first`
and every later read returns `later`. -/
def ttyAnswering2 (first later : String) : Tty :=
  { writeOk := fun _ => true, readRes := fun k => if k = 0 then some first else some later }

/-! ## Lemmas on the port -/

theorem sendCommand_write_fail (t : Tty) (cmd : String) (w : Bool) (s : Driver)
    (h : t.writeOk s.nWrites = false) :
    sendCommand t cmd w s =
      (false, "", { s with trace := s.trace ++ [TtyOp.flush, TtyOp.write cmd],
                            nWrites := s.nWrites + 1 }) := by
  simp [sendCommand, h]

theorem sendCommand_noRes (t : Tty) (cmd : String) (s : Driver)
    (h : t.writeOk s.nWrites = true) :
    sendCommand t cmd false s =
      (true, "", { s with trace := s.trace ++ [TtyOp.flush, TtyOp.write cmd],
                           nWrites := s.nWrites + 1 }) := by
  simp [sendCommand, h]

theorem sendCommand_read_fail (t : Tty) (cmd : String) (s : Driver)
    (h : t.writeOk s.nWrites = true) (hr : t.readRes s.nReads = none) :
    sendCommand t cmd true s =
      (false, "", { s with trace := s.trace ++ [TtyOp.flush, TtyOp.write cmd, TtyOp.read],
                            nWrites := s.nWrites + 1, nReads := s.nReads + 1 }) := by
  simp [sendCommand, h, hr]

theorem sendCommand_read_ok (t : Tty) (cmd : String) (s : Driver) (res : String)
    (h : t.writeOk s.nWrites = true) (hr : t.readRes s.nReads = some res) :
    sendCommand t cmd true s =
      (true, res, { s with trace := s.trace ++
                              [TtyOp.flush, TtyOp.write cmd, TtyOp.read, TtyOp.flush],
                            nWrites := s.nWrites + 1, nReads := s.nReads + 1 }) := by
  simp [sendCommand, h, hr]

/-- Apart from the record of port operations, `sendCommand` leaves the driver as it was. -/
theorem sendCommand_state (t : Tty) (cmd : String) (w : Bool) (s : Driver) :
    ∃ tr nw nr, (sendCommand t cmd w s).2.2 = { s with trace := tr, nWrites := nw, nReads := nr } := by
  unfold sendCommand
  by_cases h1 : t.writeOk s.nWrites = false
  · simp only [h1, if_true]; exact ⟨_, _, _, rfl⟩
  · by_cases h2 : w = false
    · simp only [h1, h2, if_true, if_false]; exact ⟨_, _, _, rfl⟩
    · simp only [h1, h2, if_false]
      cases t.readRes s.nReads <;> exact ⟨_, _, _, rfl⟩

/-- The operations of `sendCommand` are appended to the trace and start with
a flush and the write of the command. -/
theorem sendCommand_trace (t : Tty) (cmd : String) (w : Bool) (s : Driver) :
    ∃ rest, (sendCommand t cmd w s).2.2.trace =
      s.trace ++ (TtyOp.flush :: TtyOp.write cmd :: rest) := by
  unfold sendCommand
  by_cases h1 : t.writeOk s.nWrites = false
  · simp only [h1, if_true]; exact ⟨[], rfl⟩
  · by_cases h2 : w = false
    · simp only [h1, h2, if_true, if_false]; exact ⟨[], rfl⟩
    · simp only [h1, h2, if_false]
      cases t.readRes s.nReads
      · exact ⟨[TtyOp.read], by simp⟩
      · exact ⟨[TtyOp.read, TtyOp.flush], by simp⟩

theorem newOps_append (s s2 : Driver) (l : List TtyOp) (h : s2.trace = s.trace ++ l) :
    newOps s s2 = l := by
  simp [newOps, h]

theorem emitted_append (s s2 : Driver) (l : List Property) (h : s2.notes = s.notes ++ l) :
    emitted s s2 = l := by
  simp [emitted, h]

/-- Apart from the record of port operations, `readPosition` changes the cached position only. -/
theorem readPosition_state (d : Dialect) (t : Tty) (s : Driver) :
    ∃ tr nw nr ap, (readPosition d t s).2 =
      { s with trace := tr, nWrites := nw, nReads := nr, absPos := ap } := by
  obtain ⟨tr, nw, nr, h⟩ := sendCommand_state t d.getPos true s
  unfold readPosition
  by_cases h1 : (sendCommand t d.getPos true s).1 = false
  · simp only [h1, if_true, h]; exact ⟨tr, nw, nr, s.absPos, rfl⟩
  · simp only [h1, if_false]
    cases sscanfInt d.lead (sendCommand t d.getPos true s).2.1 with
    | none => simp only [h]; exact ⟨tr, nw, nr, s.absPos, rfl⟩
    | some pos => simp only [h]; exact ⟨tr, nw, nr, pos, rfl⟩

/-- Apart from the record of port operations, `isMoving` leaves the driver as it was. -/
theorem isMoving_state (d : Dialect) (t : Tty) (s : Driver) :
    ∃ tr nw nr, (isMoving d t s).2 = { s with trace := tr, nWrites := nw, nReads := nr } := by
  obtain ⟨tr, nw, nr, h⟩ := sendCommand_state t d.getMoving true s
  unfold isMoving
  refine ⟨tr, nw, nr, ?_⟩
  dsimp only
  split_ifs <;> exact h

theorem pollPosition_notes (d : Dialect) (t : Tty) (s : Driver) :
    (pollPosition d t s).notes =
      s.notes ++ (if (readPosition d t s).1 = true ∧
                      5 < |s.lastPos - (readPosition d t s).2.absPos|
                  then [Property.FocusAbsPosNP] else []) := by
  obtain ⟨tr, nw, nr, ap, h⟩ := readPosition_state d t s
  unfold pollPosition
  have hl : (readPosition d t s).2.lastPos = s.lastPos := by rw [h]
  have hn : (readPosition d t s).2.notes = s.notes := by rw [h]
  dsimp only
  rw [hl]
  split_ifs <;> simp [hn]

theorem pollPosition_states (d : Dialect) (t : Tty) (s : Driver) :
    (pollPosition d t s).absS = s.absS ∧ (pollPosition d t s).relS = s.relS := by
  obtain ⟨tr, nw, nr, ap, h⟩ := readPosition_state d t s
  unfold pollPosition
  dsimp only
  split_ifs <;> simp [h]

theorem pollMotion_notes (d : Dialect) (t : Tty) (s : Driver) :
    (pollMotion d t s).notes =
      s.notes ++ (if (s.absS = IPState.IPS_BUSY ∨ s.relS = IPState.IPS_BUSY) ∧
                      (isMoving d t s).1 = false
                  then [Property.FocusAbsPosNP, Property.FocusRelPosNP] else []) := by
  obtain ⟨tr, nw, nr, h⟩ := isMoving_state d t s
  have hn : (isMoving d t s).2.notes = s.notes := by rw [h]
  unfold pollMotion
  dsimp only
  split_ifs <;> simp_all

/-- The set-target command is the first thing `MoveFocuser` writes. -/
theorem MoveFocuser_trace (d : Dialect) (t : Tty) (p : Nat) (s : Driver) :
    ∃ rest, (MoveFocuser d t p s).2.trace =
      s.trace ++ (TtyOp.flush :: TtyOp.write (d.setTarget p) :: rest) := by
  cases d
  case paren =>
    obtain ⟨rest, h⟩ := sendCommand_trace t (Dialect.paren.setTarget p) false s
    refine ⟨rest, ?_⟩
    simp only [MoveFocuser]
    split_ifs <;> exact h
  all_goals
    obtain ⟨rest, h⟩ := sendCommand_trace t (Dialect.setTarget _ p) true s
    obtain ⟨rest2, h2⟩ := sendCommand_trace t (Dialect.startMove _) false
      (sendCommand t (Dialect.setTarget _ p) true s).2.2
    simp only [MoveFocuser]
    split_ifs
    · exact ⟨rest, h⟩
    · exact ⟨_, by rw [h2, h, List.append_assoc]; rfl⟩
    · exact ⟨_, by rw [h2, h, List.append_assoc]; rfl⟩

/-! ## Relative moves are clamped to the configured maximum -/

/-- Claim C1, as stated, fails: in the bracket variant with the configured
maximum 100000, the device-reported maximum position 60000 and the cached
position 50000, an outward relative move of 20000 ticks sends the set-target
command for 70000, which is beyond the device-reported maximum. -/
theorem MoveRelFocuser_beyond_maxPos :
    (MoveRelFocuser Dialect.bracket (ttyAnswering "[1]") FocusDirection.FOCUS_OUTWARD 20000
        (initDriver 60000)).2.trace =
      [TtyOp.flush, TtyOp.write "<STAR070000>", TtyOp.read, TtyOp.flush,
       TtyOp.flush, TtyOp.write "<SMOV>"] ∧
    relTarget (initDriver 60000) FocusDirection.FOCUS_OUTWARD 20000 = 70000 ∧
    ¬ ((70000 : Int) ≤ (initDriver 60000).maxPos) := by
  decide

theorem relTarget_bounds (s : Driver) (dir : FocusDirection) (ticks : Nat)
    (h0 : 0 ≤ s.absMax) (h1 : s.absMax < (2 : Int) ^ 31) :
    0 ≤ relTarget s dir ticks ∧ relTarget s dir ticks ≤ s.absMax := by
  have hm : toInt32 s.absMax = s.absMax := by
    unfold toInt32
    rw [if_pos ⟨by omega, h1⟩]
  unfold relTarget
  dsimp only
  rw [hm]
  constructor
  · exact le_max_left _ _
  · exact max_le h0 (min_le_left _ _)

/-- Claim C1, amended: for every cached position, direction and delta, and every
configured maximum `FocusAbsPosN[0].max` between 0 and the largest `int32_t`,
the first command `MoveRelFocuser` writes is the set-target command of a
position that lies between 0 and that configured maximum. -/
theorem MoveRelFocuser_clamped_to_absMax (d : Dialect) (t : Tty) (dir : FocusDirection)
    (ticks : Nat) (s : Driver) (h0 : 0 ≤ s.absMax) (h1 : s.absMax < (2 : Int) ^ 31) :
    ∃ (p : Nat) (rest : List TtyOp), (p : Int) = relTarget s dir ticks ∧ (p : Int) ≤ s.absMax ∧
      newOps s (MoveRelFocuser d t dir ticks s).2 =
        TtyOp.flush :: TtyOp.write (d.setTarget p) :: rest := by
  obtain ⟨hlo, hhi⟩ := relTarget_bounds s dir ticks h0 h1
  obtain ⟨rest, h⟩ := MoveFocuser_trace d t (relTarget s dir ticks).toNat s
  refine ⟨(relTarget s dir ticks).toNat, rest, Int.toNat_of_nonneg hlo, ?_, ?_⟩
  · rw [Int.toNat_of_nonneg hlo]; exact hhi
  · apply newOps_append
    unfold MoveRelFocuser
    dsimp only
    split_ifs <;> exact h

/-- The clamp at work: an inward move of 70000 ticks from 50000 in the parenthesis variant. -/
theorem MoveRelFocuser_clamped_to_absMax_witness :
    ∃ (p : Nat) (rest : List TtyOp),
      (p : Int) = relTarget (initDriver 60000) FocusDirection.FOCUS_INWARD 70000 ∧
      (p : Int) ≤ (initDriver 60000).absMax ∧
      newOps (initDriver 60000) (MoveRelFocuser Dialect.paren (ttyAnswering "")
          FocusDirection.FOCUS_INWARD 70000 (initDriver 60000)).2 =
        TtyOp.flush :: TtyOp.write (Dialect.paren.setTarget p) :: rest :=
  MoveRelFocuser_clamped_to_absMax Dialect.paren (ttyAnswering "")
    FocusDirection.FOCUS_INWARD 70000 (initDriver 60000) (by decide) (by decide)

/-! ## Poll tick: when the absolute position is notified -/

set_option maxRecDepth 8000 in
/-- Claim C2, as stated, fails: with a move pending (state Busy), `lastPos`
equal to the cached position 50000, a device that reports the position 50000
and then answers `not moving`, the tick notifies the absolute position although
the position read is 0 ticks away from `lastPos`. -/
theorem TimerHit_notifies_without_change :
    emitted { initDriver 60000 with absS := IPState.IPS_BUSY, lastPos := 50000 }
      (TimerHit Dialect.bracket (ttyAnswering2 "[50000]" "[0]")
        { initDriver 60000 with absS := IPState.IPS_BUSY, lastPos := 50000 }) =
      [Property.FocusAbsPosNP, Property.FocusRelPosNP] ∧
    (readPosition Dialect.bracket (ttyAnswering2 "[50000]" "[0]")
        { initDriver 60000 with absS := IPState.IPS_BUSY, lastPos := 50000 }).1 = true ∧
    (readPosition Dialect.bracket (ttyAnswering2 "[50000]" "[0]")
        { initDriver 60000 with absS := IPState.IPS_BUSY, lastPos := 50000 }).2.absPos = 50000 ∧
    ¬ (5 < |(50000 : Int) - 50000|) := by
  decide

/-- Claim C2, amended: a connected `TimerHit` notifies the absolute-position
property exactly when the position query succeeded and the position just read
differs from `lastPos` (as it was before the tick) by more than 5 ticks, or the
absolute or relative position state is Busy and `isMoving` returns false (the
notification that the move has finished). -/
theorem TimerHit_absPos_notified_iff (d : Dialect) (t : Tty) (s : Driver)
    (hc : s.connected = true) :
    Property.FocusAbsPosNP ∈ emitted s (TimerHit d t s) ↔
      ((readPosition d t s).1 = true ∧ 5 < |s.lastPos - (readPosition d t s).2.absPos|) ∨
      ((s.absS = IPState.IPS_BUSY ∨ s.relS = IPState.IPS_BUSY) ∧
        (isMoving d t (pollPosition d t s)).1 = false) := by
  have h1 := pollPosition_notes d t s
  have h2 := pollMotion_notes d t (pollPosition d t s)
  obtain ⟨ha, hr⟩ := pollPosition_states d t s
  rw [ha, hr] at h2
  have hn : (TimerHit d t s).notes = (pollMotion d t (pollPosition d t s)).notes := by
    unfold TimerHit
    simp [hc]
  rw [emitted_append s (TimerHit d t s) _ (by rw [hn, h2, h1, List.append_assoc])]
  split_ifs <;> simp_all

/-- The notification rule at a tick where the device reports 50006 and `lastPos` is 0. -/
theorem TimerHit_absPos_notified_iff_witness :
    Property.FocusAbsPosNP ∈ emitted (initDriver 60000)
        (TimerHit Dialect.bracket (ttyAnswering "[50006]") (initDriver 60000)) ↔
      ((readPosition Dialect.bracket (ttyAnswering "[50006]") (initDriver 60000)).1 = true ∧
        5 < |(initDriver 60000).lastPos -
              (readPosition Dialect.bracket (ttyAnswering "[50006]") (initDriver 60000)).2.absPos|) ∨
      (((initDriver 60000).absS = IPState.IPS_BUSY ∨ (initDriver 60000).relS = IPState.IPS_BUSY) ∧
        (isMoving Dialect.bracket (ttyAnswering "[50006]")
          (pollPosition Dialect.bracket (ttyAnswering "[50006]") (initDriver 60000))).1 = false) :=
  TimerHit_absPos_notified_iff Dialect.bracket (ttyAnswering "[50006]") (initDriver 60000)
    (by decide)

/-! ## The timed-move callback -/

/-- Claim C3: whatever the states of the absolute-position, relative-position
and timer properties were, and whether or not the abort write succeeds, after
`timedMoveCallback` the three states are Idle and the timer value is 0. -/
theorem timedMoveCallback_resets (d : Dialect) (t : Tty) (s : Driver) :
    (timedMoveCallback d t s).absS = IPState.IPS_IDLE ∧
    (timedMoveCallback d t s).relS = IPState.IPS_IDLE ∧
    (timedMoveCallback d t s).timerS = IPState.IPS_IDLE ∧
    (timedMoveCallback d t s).timerValue = 0 := by
  cases d <;> simp [timedMoveCallback]

/-! ## Handshake: parsing a framed integer -/

theorem digitChar_facts (k : Nat) (h : k < 10) :
    (Nat.digitChar k).isDigit = true ∧ (Nat.digitChar k).toNat - 48 = k := by
  interval_cases k <;> decide

theorem digitsValue_snoc (ds : List Char) (c : Char) :
    digitsValue (ds ++ [c]) = 10 * digitsValue ds + (c.toNat - 48) := by
  simp [digitsValue, List.foldl_append]

/-- The decimal digits core prints for `n` are a non-empty run of digit
characters whose value is `n`. -/
theorem toDigitsCore_spec (fuel : Nat) : ∀ (n : Nat) (acc : List Char), n < fuel →
    ∃ ds, Nat.toDigitsCore 10 fuel n acc = ds ++ acc ∧ ds ≠ [] ∧
      (∀ c ∈ ds, c.isDigit = true) ∧ digitsValue ds = n := by
  induction fuel with
  | zero => intro n acc h; omega
  | succ f ih =>
    intro n acc h
    obtain ⟨hd, hv⟩ := digitChar_facts (n % 10) (Nat.mod_lt _ (by decide))
    simp only [Nat.toDigitsCore]
    by_cases h0 : n / 10 = 0
    · refine ⟨[Nat.digitChar (n % 10)], by simp [h0], by simp, by simpa using hd, ?_⟩
      simp only [digitsValue, List.foldl_cons, List.foldl_nil, hv]
      omega
    · obtain ⟨ds, h1, -, h3, h4⟩ := ih (n / 10) (Nat.digitChar (n % 10) :: acc) (by omega)
      refine ⟨ds ++ [Nat.digitChar (n % 10)], by simp [h0, h1], by simp, ?_, ?_⟩
      · intro c hc
        rcases List.mem_append.1 hc with hc | hc
        · exact h3 c hc
        · rw [List.mem_singleton.1 hc]; exact hd
      · rw [digitsValue_snoc, h4, hv]; omega

theorem toDigits_spec (n : Nat) :
    Nat.toDigits 10 n ≠ [] ∧ (∀ c ∈ Nat.toDigits 10 n, c.isDigit = true) ∧
      digitsValue (Nat.toDigits 10 n) = n := by
  obtain ⟨ds, h1, h2, h3, h4⟩ := toDigitsCore_spec (n + 1) n [] (by omega)
  rw [List.append_nil] at h1
  unfold Nat.toDigits
  rw [h1]
  exact ⟨h2, h3, h4⟩

theorem takeWhile_run (p : Char → Bool) (ds : List Char) (c : Char) (rest : List Char)
    (hds : ∀ x ∈ ds, p x = true) (hc : p c = false) :
    (ds ++ c :: rest).takeWhile p = ds := by
  induction ds with
  | nil => simp [List.takeWhile, hc]
  | cons a l ih =>
    have ha : p a = true := hds a (by simp)
    simp only [List.cons_append, List.takeWhile_cons, ha, if_true]
    rw [ih (fun x hx => hds x (by simp [hx]))]

theorem isDigit_facts (c : Char) (h : c.isDigit = true) :
    isspace c = false ∧ c ≠ '-' ∧ c ≠ '+' := by
  have h1 : 48 ≤ c.toNat ∧ c.toNat ≤ 57 := by
    simpa [Char.isDigit, Char.toNat, UInt32.le_def, Fin.le_def] using h
  refine ⟨?_, ?_, ?_⟩
  · unfold isspace
    simp only [Bool.or_eq_false_iff, Bool.and_eq_false_iff, decide_eq_false_iff_not]
    omega
  · rintro rfl; revert h; decide
  · rintro rfl; revert h; decide

theorem wrapInt32_strtolSat (n : Int) (hlo : -(2 : Int) ^ 31 ≤ n) (hhi : n < (2 : Int) ^ 31) :
    wrapInt32 (strtolSat n) = n := by
  unfold wrapInt32 strtolSat
  norm_num at hlo hhi ⊢
  rw [min_eq_right (by omega), max_eq_right (by omega)]
  omega

theorem dropWhile_spaces (ws x : List Char) (h : ∀ c ∈ ws, isspace c = true) :
    (ws ++ x).dropWhile isspace = x.dropWhile isspace := by
  induction ws with
  | nil => rfl
  | cons a l ih =>
    have ha : isspace a = true := h a (by simp)
    simp only [List.cons_append, List.dropWhile_cons, ha, if_true]
    exact ih (fun c hc => h c (by simp [hc]))

theorem dropWhile_nonspace (a : Char) (x : List Char) (h : isspace a = false) :
    (a :: x).dropWhile isspace = a :: x := by
  simp [List.dropWhile_cons, h]

/-- An unsigned run of digits followed by a non-digit is scanned to its value. -/
theorem scanInt_digits (ds : List Char) (c : Char) (rest : List Char) (hne : ds ≠ [])
    (hds : ∀ x ∈ ds, x.isDigit = true) (hc : c.isDigit = false) :
    scanInt (ds ++ c :: rest) = some (wrapInt32 (strtolSat (digitsValue ds))) := by
  obtain ⟨a, l, rfl⟩ := List.exists_cons_of_ne_nil hne
  obtain ⟨hsp, hm, hp⟩ := isDigit_facts a (hds a (by simp))
  have htw := takeWhile_run Char.isDigit (a :: l) c rest hds hc
  unfold scanInt
  simp only [List.cons_append] at htw ⊢
  rw [dropWhile_nonspace a _ hsp]
  simp [hm, hp, htw]

/-- A minus sign, a run of digits and a non-digit are scanned to the negated value. -/
theorem scanInt_neg_digits (ds : List Char) (c : Char) (rest : List Char) (hne : ds ≠ [])
    (hds : ∀ x ∈ ds, x.isDigit = true) (hc : c.isDigit = false) :
    scanInt ('-' :: (ds ++ c :: rest)) =
      some (wrapInt32 (strtolSat (-(digitsValue ds : Int)))) := by
  have htw := takeWhile_run Char.isDigit ds c rest hds hc
  unfold scanInt
  rw [dropWhile_nonspace '-' _ (by decide)]
  simp [htw, hne]

theorem close_not_digit (d : Dialect) : d.close.isDigit = false := by
  cases d <;> decide

/-- The `sscanf` of the drivers reads `n` back from the framing of `n`. -/
theorem sscanfInt_frame (d : Dialect) (n : Int) (hlo : -(2 : Int) ^ 31 ≤ n)
    (hhi : n < (2 : Int) ^ 31) : sscanfInt d.lead (frame d n) = some n := by
  obtain ⟨h1, h2, h3⟩ := toDigits_spec n.natAbs
  unfold sscanfInt frame intChars
  by_cases hn : n < 0
  · simp only [hn, if_true, List.cons_append]
    rw [scanInt_neg_digits _ _ _ h1 h2 (close_not_digit d), h3]
    have : -((n.natAbs : Nat) : Int) = n := by omega
    rw [this, wrapInt32_strtolSat n hlo hhi]
  · simp only [hn, if_false, if_true]
    rw [scanInt_digits _ _ _ h1 h2 (close_not_digit d), h3]
    have : ((n.natAbs : Nat) : Int) = n := by omega
    rw [this, wrapInt32_strtolSat n hlo hhi]

/-- Claim C4: for every integer `n` in the signed 32-bit range, when the write
and the read of the position query succeed and the answer read is the framing
of `n` in the dialect of the variant (`[n]`, `(n)` or `:n#`), `Handshake`
returns true and the position `Ack` parsed is `n`. -/
theorem Handshake_parses_framed (d : Dialect) (t : Tty) (s : Driver) (n : Int)
    (hlo : -(2 : Int) ^ 31 ≤ n) (hhi : n < (2 : Int) ^ 31)
    (hw : t.writeOk s.nWrites = true) (hr : t.readRes s.nReads = some (frame d n)) :
    (Handshake d t s).1 = true ∧ (ackScan d t s).1 = some n := by
  have hs : (ackScan d t s).1 = some n := by
    unfold ackScan
    simp only [sendCommand_read_ok t d.getPos s (frame d n) hw hr]
    simpa using sscanfInt_frame d n hlo hhi
  refine ⟨?_, hs⟩
  simp [Handshake, Ack, hs]

/-- The answer `[1234]` of the bracket variant is accepted and parsed as 1234. -/
theorem Handshake_parses_framed_witness :
    frame Dialect.bracket 1234 = "[1234]" ∧
    (Handshake Dialect.bracket (ttyAnswering "[1234]") (initDriver 60000)).1 = true ∧
    (ackScan Dialect.bracket (ttyAnswering "[1234]") (initDriver 60000)).1 = some 1234 :=
  ⟨by decide, Handshake_parses_framed Dialect.bracket (ttyAnswering "[1234]")
    (initDriver 60000) 1234 (by decide) (by decide) (by decide) (by decide)⟩

/-! ## Handshake: which answers are refused -/

theorem scanInt_isSome_of_prefixed (ws sg ds rest : List Char)
    (hws : ∀ c ∈ ws, isspace c = true) (hsg : sg = [] ∨ sg = ['-'] ∨ sg = ['+'])
    (hne : ds ≠ []) (hds : ∀ c ∈ ds, c.isDigit = true) :
    (scanInt (ws ++ (sg ++ (ds ++ rest)))).isSome = true := by
  obtain ⟨a, l, rfl⟩ := List.exists_cons_of_ne_nil hne
  have ha : a.isDigit = true := hds a (by simp)
  obtain ⟨hsp, hm, hp⟩ := isDigit_facts a ha
  unfold scanInt
  rw [dropWhile_spaces ws _ hws]
  rcases hsg with rfl | rfl | rfl
  · simp only [List.nil_append, List.cons_append]
    rw [dropWhile_nonspace a _ hsp]
    simp [hm, hp, List.takeWhile_cons, ha]
  · simp only [List.cons_append, List.nil_append]
    rw [dropWhile_nonspace '-' _ (by decide)]
    simp [List.takeWhile_cons, ha]
  · simp only [List.cons_append, List.nil_append]
    rw [dropWhile_nonspace '+' _ (by decide)]
    simp [List.takeWhile_cons, ha]

theorem prefixed_of_scanInt_isSome (r : List Char) (h : (scanInt r).isSome = true) :
    ∃ ws sg ds rest, r = ws ++ (sg ++ (ds ++ rest)) ∧
      (∀ c ∈ ws, isspace c = true) ∧ (sg = [] ∨ sg = ['-'] ∨ sg = ['+']) ∧
      ds ≠ [] ∧ ∀ c ∈ ds, c.isDigit = true := by
  have hr : r = r.takeWhile isspace ++ r.dropWhile isspace :=
    (List.takeWhile_append_dropWhile isspace r).symm
  have hws : ∀ c ∈ r.takeWhile isspace, isspace c = true :=
    fun c hc => List.mem_takeWhile_imp hc
  unfold scanInt at h
  dsimp only at h
  generalize r.dropWhile isspace = cs1 at h hr
  by_cases hs : cs1.head? = some '-' ∨ cs1.head? = some '+'
  · rw [if_pos hs] at h
    have hne : List.takeWhile Char.isDigit cs1.tail ≠ [] := by
      intro h0; rw [if_pos h0] at h; simp at h
    have hc : cs1 = (if cs1.head? = some '-' then ['-'] else ['+']) ++ cs1.tail := by
      cases cs1 with
      | nil => simp at hs
      | cons a l =>
        simp only [List.head?_cons, Option.some.injEq] at hs ⊢
        rcases hs with rfl | rfl <;> simp
    refine ⟨r.takeWhile isspace, if cs1.head? = some '-' then ['-'] else ['+'],
      cs1.tail.takeWhile Char.isDigit, cs1.tail.dropWhile Char.isDigit, ?_, hws, ?_, hne,
      fun c hc => List.mem_takeWhile_imp hc⟩
    · rw [List.takeWhile_append_dropWhile, ← hc]; exact hr
    · split_ifs <;> simp
  · rw [if_neg hs] at h
    have hne : List.takeWhile Char.isDigit cs1 ≠ [] := by
      intro h0; rw [if_pos h0] at h; simp at h
    refine ⟨r.takeWhile isspace, [], cs1.takeWhile Char.isDigit, cs1.dropWhile Char.isDigit,
      ?_, hws, Or.inl rfl, hne, fun c hc => List.mem_takeWhile_imp hc⟩
    rw [List.nil_append, List.takeWhile_append_dropWhile]; exact hr

/-- The `sscanf` of the drivers converts a number exactly from the answers
that start with the opening delimiter, optional white space, an optional sign
and at least one digit. -/
theorem sscanfInt_isSome_iff (d : Dialect) (res : String) :
    (sscanfInt d.lead res).isSome = true ↔ IntPrefixed d res := by
  unfold sscanfInt IntPrefixed
  cases hres : res.data with
  | nil => simp
  | cons c r =>
    by_cases hc : c = d.lead
    · subst hc
      simp only [if_true, List.cons.injEq, true_and]
      constructor
      · exact prefixed_of_scanInt_isSome r
      · rintro ⟨ws, sg, ds, rest, rfl, hws, hsg, hne, hds⟩
        exact scanInt_isSome_of_prefixed ws sg ds rest hws hsg hne hds
    · simp only [if_neg hc, Option.isSome_none, List.cons.injEq]
      constructor
      · intro h; cases h
      · rintro ⟨ws, sg, ds, rest, ⟨h1, -⟩, -⟩
        exact absurd h1 hc

/-- Claim C5, as stated, fails: in the bracket variant the answer `[12ab]`
(characters after the digits) and in the parenthesis variant the answer
`(1234` followed by a line feed (no closing delimiter) are not of the exact
pattern, and `Handshake` returns true on both. -/
theorem Handshake_accepts_malformed :
    exactPattern Dialect.bracket "[12ab]" = false ∧
    (Handshake Dialect.bracket (ttyAnswering "[12ab]") (initDriver 60000)).1 = true ∧
    exactPattern Dialect.paren "(1234\n" = false ∧
    (Handshake Dialect.paren (ttyAnswering "(1234\n") (initDriver 60000)).1 = true := by
  decide

/-- Claim C5, amended: when the write and the read of the position query
succeed, `Handshake` returns false exactly for the answers that do not start
with the opening delimiter of the dialect followed by optional white space,
an optional sign and at least one decimal digit; what follows the digits,
the closing delimiter included, is not examined. -/
theorem Handshake_false_iff (d : Dialect) (t : Tty) (s : Driver) (res : String)
    (hw : t.writeOk s.nWrites = true) (hr : t.readRes s.nReads = some res) :
    (Handshake d t s).1 = false ↔ ¬ IntPrefixed d res := by
  rw [← sscanfInt_isSome_iff]
  have hs : (ackScan d t s).1 = sscanfInt d.lead res := by
    unfold ackScan
    simp [sendCommand_read_ok t d.getPos s res hw hr]
  cases h : sscanfInt d.lead res <;> simp [Handshake, Ack, hs, h]

/-- The refusal rule at the answer `1234]`, which lacks the opening delimiter. -/
theorem Handshake_false_iff_witness :
    (Handshake Dialect.bracket (ttyAnswering "1234]") (initDriver 60000)).1 = false ↔
      ¬ IntPrefixed Dialect.bracket "1234]" :=
  Handshake_false_iff Dialect.bracket (ttyAnswering "1234]") (initDriver 60000) "1234]"
    (by decide) (by decide)

/-! ## Handshake: transport failures -/

/-- The port operations of `Handshake` are those of one `sendCommand` of the
position query, and its result is false unless both the write and the read succeed. -/
theorem Handshake_ops (d : Dialect) (t : Tty) (s : Driver) :
    newOps s (Handshake d t s).2 =
      (if t.writeOk s.nWrites = false then [TtyOp.flush, TtyOp.write d.getPos]
       else if t.readRes s.nReads = none then [TtyOp.flush, TtyOp.write d.getPos, TtyOp.read]
       else [TtyOp.flush, TtyOp.write d.getPos, TtyOp.read, TtyOp.flush]) ∧
    ((t.writeOk s.nWrites = false ∨ t.readRes s.nReads = none) → (Handshake d t s).1 = false) := by
  have hH : (Handshake d t s).2 = (sendCommand t d.getPos true s).2.2 := by
    unfold Handshake Ack ackScan
    dsimp only
    split_ifs <;> rfl
  have hB : (Handshake d t s).1 = ((sendCommand t d.getPos true s).1 &&
      (sscanfInt d.lead (sendCommand t d.getPos true s).2.1).isSome) := by
    unfold Handshake Ack ackScan
    dsimp only
    cases (sendCommand t d.getPos true s).1 <;>
      cases (sscanfInt d.lead (sendCommand t d.getPos true s).2.1) <;> simp
  rw [hH, hB]
  by_cases hw : t.writeOk s.nWrites = false
  · rw [sendCommand_write_fail t _ _ s hw, if_pos hw]
    exact ⟨newOps_append _ _ _ rfl, fun _ => rfl⟩
  · have hw2 : t.writeOk s.nWrites = true := by simpa using hw
    rw [if_neg hw]
    cases hr : t.readRes s.nReads with
    | none =>
      rw [sendCommand_read_fail t _ s hw2 hr, if_pos rfl]
      exact ⟨newOps_append _ _ _ rfl, fun _ => rfl⟩
    | some res =>
      rw [sendCommand_read_ok t _ s res hw2 hr, if_neg (by simp)]
      refine ⟨newOps_append _ _ _ rfl, fun h => ?_⟩
      rcases h with h | h
      · exact absurd h hw
      · cases h

/-- Claim C6: `Handshake` returns false whenever the write of the position
query fails or the read of the answer fails or times out; after a failed write
its only port operations are a flush and that one write (no read); after a
failed read they are a flush, the one write and the one read; and in every case
it writes the position query exactly once and reads at most once. -/
theorem Handshake_fails_without_retry (d : Dialect) (t : Tty) (s : Driver) :
    (t.writeOk s.nWrites = false →
      (Handshake d t s).1 = false ∧
      newOps s (Handshake d t s).2 = [TtyOp.flush, TtyOp.write d.getPos]) ∧
    (t.writeOk s.nWrites = true → t.readRes s.nReads = none →
      (Handshake d t s).1 = false ∧
      newOps s (Handshake d t s).2 = [TtyOp.flush, TtyOp.write d.getPos, TtyOp.read]) ∧
    writtenCmds (newOps s (Handshake d t s).2) = [d.getPos] ∧
    readCount (newOps s (Handshake d t s).2) ≤ 1 := by
  obtain ⟨hops, hres⟩ := Handshake_ops d t s
  refine ⟨fun hw => ⟨hres (Or.inl hw), by rw [hops, if_pos hw]⟩,
    fun hw hr => ⟨hres (Or.inr hr), by rw [hops, if_neg (by simp [hw]), if_pos hr]⟩, ?_, ?_⟩
  · rw [hops]; split_ifs <;> rfl
  · rw [hops]; split_ifs <;> simp [readCount]

/-- On a line where the write fails, `Handshake` fails after one flush and one write. -/
theorem Handshake_fails_without_retry_witness :
    (Handshake Dialect.bracket ttyDead (initDriver 60000)).1 = false ∧
    newOps (initDriver 60000) (Handshake Dialect.bracket ttyDead (initDriver 60000)).2 =
      [TtyOp.flush, TtyOp.write "<GPOS>"] :=
  (Handshake_fails_without_retry Dialect.bracket ttyDead (initDriver 60000)).1 (by decide)

/-! ## Sync -/

/-- Claim C7: for every tick count and every driver state, `SyncFocuser` makes
exactly one write (of the sync command, after a flush) and no read on the port,
and leaves the cached position and `lastPos` as they were. -/
theorem SyncFocuser_one_write_no_read (d : Dialect) (t : Tty) (ticks : Nat) (s : Driver) :
    newOps s (SyncFocuser d t ticks s).2 = [TtyOp.flush, TtyOp.write (d.sync ticks)] ∧
    writtenCmds (newOps s (SyncFocuser d t ticks s).2) = [d.sync ticks] ∧
    readCount (newOps s (SyncFocuser d t ticks s).2) = 0 ∧
    (SyncFocuser d t ticks s).2.absPos = s.absPos ∧
    (SyncFocuser d t ticks s).2.lastPos = s.lastPos := by
  have h : (SyncFocuser d t ticks s).2 =
      { s with trace := s.trace ++ [TtyOp.flush, TtyOp.write (d.sync ticks)],
               nWrites := s.nWrites + 1 } := by
    unfold SyncFocuser
    cases hw : t.writeOk s.nWrites
    · rw [sendCommand_write_fail t _ _ s hw]
    · rw [sendCommand_noRes t _ s hw]
  have hops := newOps_append s (SyncFocuser d t ticks s).2 _ (by rw [h])
  rw [hops]
  refine ⟨rfl, rfl, rfl, ?_, ?_⟩ <;> rw [h]

/-- The sync command of the bracket variant for 5000 ticks. -/
theorem sync_5000 : Dialect.bracket.sync 5000 = "<SPOS005000>" := by
  decide

/-! ## Absolute moves -/

/-- Claim C8: for every target, `MoveAbsFocuser` records the target in
`targetPos`, and returns Busy if every write and read it makes on the port
succeeds and Alert if one of them fails. -/
theorem MoveAbsFocuser_result (d : Dialect) (t : Tty) (target : Nat) (s : Driver) :
    (MoveAbsFocuser d t target s).2.targetPos = (target : Int) ∧
    (allOk t s (MoveAbsFocuser d t target s).2 = true →
      (MoveAbsFocuser d t target s).1 = IPState.IPS_BUSY) ∧
    (allOk t s (MoveAbsFocuser d t target s).2 = false →
      (MoveAbsFocuser d t target s).1 = IPState.IPS_ALERT) := by
  cases d <;> cases hw : t.writeOk s.nWrites <;> cases hr : t.readRes s.nReads <;>
    cases hw2 : t.writeOk (s.nWrites + 1) <;>
    simp [MoveAbsFocuser, MoveFocuser, sendCommand, allOk, hw, hr, hw2, List.range_succ]
  all_goals
    first
    | exact ⟨1, by omega, hw2⟩
    | (intro x hx
       have hx2 : x = 0 ∨ x = 1 := by omega
       rcases hx2 with rfl | rfl
       · simpa using hw
       · exact hw2)

/-- On a line where the write fails, `MoveAbsFocuser` returns Alert. -/
theorem MoveAbsFocuser_result_witness :
    (MoveAbsFocuser Dialect.bracket ttyDead 50000 (initDriver 60000)).1 = IPState.IPS_ALERT :=
  (MoveAbsFocuser_result Dialect.bracket ttyDead 50000 (initDriver 60000)).2.2 (by decide)

/-- Claim C9, as stated, fails: on a working line the bracket variant and the
colon variant write two command strings for one `MoveAbsFocuser`, the
set-target command and then the start-motion command. -/
theorem MoveAbsFocuser_two_commands :
    writtenCmds (newOps (initDriver 60000)
      (MoveAbsFocuser Dialect.bracket (ttyAnswering "[1]") 50000 (initDriver 60000)).2) =
      ["<STAR050000>", "<SMOV>"] ∧
    writtenCmds (newOps (initDriver 60000)
      (MoveAbsFocuser Dialect.colon (ttyAnswering ":1#") 50000 (initDriver 60000)).2) =
      ["STARG:050000#", "SMOV:#"] ∧
    (writtenCmds (newOps (initDriver 60000)
      (MoveAbsFocuser Dialect.bracket (ttyAnswering "[1]") 50000 (initDriver 60000)).2)).length
      ≠ 1 := by
  decide

/-- Claim C9, amended: for every target, a `MoveAbsFocuser` call on a working
line (every write and every read succeeds) writes exactly one command string,
the set-target command, in the parenthesis variant, and exactly two, the
set-target command followed by the start-motion command, in the bracket and
colon variants. -/
theorem MoveAbsFocuser_commands (d : Dialect) (t : Tty) (target : Nat) (s : Driver)
    (hw : ∀ k, t.writeOk k = true) (hr : ∀ k, (t.readRes k).isSome = true) :
    writtenCmds (newOps s (MoveAbsFocuser d t target s).2) =
      (match d with
       | Dialect.paren => [d.setTarget target]
       | _ => [d.setTarget target, d.startMove]) := by
  obtain ⟨res, hres⟩ := Option.isSome_iff_exists.1 (hr s.nReads)
  cases d <;>
    simp [MoveAbsFocuser, MoveFocuser, sendCommand, newOps, hw, hres, writtenCmds]

/-- The parenthesis variant writes the single command `M:` on a working line. -/
theorem MoveAbsFocuser_commands_witness :
    writtenCmds (newOps (initDriver 60000)
      (MoveAbsFocuser Dialect.paren (ttyAnswering "") 50000 (initDriver 60000)).2) =
      [Dialect.paren.setTarget 50000] :=
  MoveAbsFocuser_commands Dialect.paren (ttyAnswering "") 50000 (initDriver 60000)
    (fun _ => rfl) (fun _ => rfl)

/-- Claim C10, the code at the failing input: for the target 4294967295 the
bracket variant writes the set-target command `<STAR-00001>`, which does not
carry the decimal value of the target, because the `uint32_t` is printed with
the signed directive `%06d`. -/
theorem MoveAbsFocuser_large_target_misprinted :
    writtenCmds (newOps (initDriver 60000)
      (MoveAbsFocuser Dialect.bracket (ttyAnswering "[1]") 4294967295 (initDriver 60000)).2) =
      ["<STAR-00001>", "<SMOV>"] ∧
    (MoveAbsFocuser Dialect.bracket (ttyAnswering "[1]") 4294967295
      (initDriver 60000)).2.targetPos = 4294967295 := by
  decide

/-- Below 2^31 the directive `%06d` prints a `uint32_t` as its decimal value,
padded with zeros to six digits. -/
theorem fmt06dU32_small (p : Nat) (h : p < 2 ^ 31) :
    fmt06dU32 p = String.mk (zeroPad 6 (Nat.toDigits 10 p)) := by
  have h1 : wrapInt32 ((p : Int) % 2 ^ 32) = (p : Int) := by
    unfold wrapInt32
    norm_num at h ⊢
    omega
  unfold fmt06dU32
  rw [h1]
  unfold fmt06d
  rw [if_neg (by omega)]
  simp

/-- Targets below 2^31, whatever the maximum position, are sent unaltered: the
first command `MoveAbsFocuser` writes is the set-target command carrying the
decimal value of the target padded with zeros to six digits. -/
theorem MoveAbsFocuser_sends_target (d : Dialect) (t : Tty) (target : Nat) (s : Driver)
    (h : target < 2 ^ 31) :
    ∃ rest, newOps s (MoveAbsFocuser d t target s).2 =
        TtyOp.flush :: TtyOp.write (d.setTarget target) :: rest ∧
      fmt06dU32 target = String.mk (zeroPad 6 (Nat.toDigits 10 target)) := by
  obtain ⟨rest, hrest⟩ := MoveFocuser_trace d t target { s with targetPos := (target : Int) }
  refine ⟨rest, ?_, fmt06dU32_small target h⟩
  apply newOps_append
  unfold MoveAbsFocuser
  dsimp only
  rw [Int.toNat_ofNat]
  split_ifs <;> exact hrest

/-! ## Relative moves compared with absolute moves -/

/-- `MoveFocuser` neither reads nor writes `targetPos`. -/
theorem MoveFocuser_targetPos (d : Dialect) (t : Tty) (p : Nat) (x : Int) (s : Driver) :
    MoveFocuser d t p { s with targetPos := x } =
      ((MoveFocuser d t p s).1, { (MoveFocuser d t p s).2 with targetPos := x }) := by
  cases d <;> cases hw : t.writeOk s.nWrites <;> cases hr : t.readRes s.nReads <;>
    cases hw2 : t.writeOk (s.nWrites + 1) <;>
    simp [MoveFocuser, sendCommand, hw, hr, hw2]

/-- Apart from the record of port operations, `MoveFocuser` leaves the driver as it was. -/
theorem MoveFocuser_state (d : Dialect) (t : Tty) (p : Nat) (s : Driver) :
    ∃ tr nw nr, (MoveFocuser d t p s).2 = { s with trace := tr, nWrites := nw, nReads := nr } := by
  cases d
  case paren =>
    obtain ⟨tr, nw, nr, h⟩ := sendCommand_state t (Dialect.paren.setTarget p) false s
    refine ⟨tr, nw, nr, ?_⟩
    simp only [MoveFocuser]
    split_ifs <;> exact h
  all_goals
    obtain ⟨tr, nw, nr, h⟩ := sendCommand_state t (Dialect.setTarget _ p) true s
    obtain ⟨tr2, nw2, nr2, h2⟩ := sendCommand_state t (Dialect.startMove _) false
      (sendCommand t (Dialect.setTarget _ p) true s).2.2
    simp only [MoveFocuser]
    split_ifs
    · exact ⟨tr, nw, nr, h⟩
    · exact ⟨tr2, nw2, nr2, h2.trans (by rw [h])⟩
    · exact ⟨tr2, nw2, nr2, h2.trans (by rw [h])⟩

/-- Claim C11, as stated, fails: from the initial state (recorded target 0) an
outward relative move of 20000 ticks leaves `targetPos` at 0, whereas
`MoveAbsFocuser` with the clamped position 70000 records 70000, so the two
calls do not leave the driver in the same state. -/
theorem MoveRelFocuser_keeps_targetPos :
    relTarget (initDriver 60000) FocusDirection.FOCUS_OUTWARD 20000 = 70000 ∧
    (MoveRelFocuser Dialect.bracket (ttyAnswering "[1]") FocusDirection.FOCUS_OUTWARD 20000
      (initDriver 60000)).2.targetPos = 0 ∧
    (MoveAbsFocuser Dialect.bracket (ttyAnswering "[1]") 70000
      (initDriver 60000)).2.targetPos = 70000 ∧
    (MoveRelFocuser Dialect.bracket (ttyAnswering "[1]") FocusDirection.FOCUS_OUTWARD 20000
      (initDriver 60000)).2 ≠
    (MoveAbsFocuser Dialect.bracket (ttyAnswering "[1]") 70000 (initDriver 60000)).2 := by
  decide

/-- Claim C11, amended: for every state, direction and delta,
`MoveRelFocuser` returns the same result and makes the same port operations as
`MoveAbsFocuser` with the clamped position, and leaves the driver in the same
state except for the recorded target position: `MoveAbsFocuser` records the
position in `targetPos`, `MoveRelFocuser` leaves `targetPos` as it was. -/
theorem MoveRelFocuser_as_MoveAbsFocuser (d : Dialect) (t : Tty) (dir : FocusDirection)
    (ticks : Nat) (s : Driver) :
    (MoveRelFocuser d t dir ticks s).1 =
      (MoveAbsFocuser d t (relTarget s dir ticks).toNat s).1 ∧
    newOps s (MoveRelFocuser d t dir ticks s).2 =
      newOps s (MoveAbsFocuser d t (relTarget s dir ticks).toNat s).2 ∧
    (MoveAbsFocuser d t (relTarget s dir ticks).toNat s).2 =
      { (MoveRelFocuser d t dir ticks s).2 with
          targetPos := ((relTarget s dir ticks).toNat : Int) } ∧
    (MoveRelFocuser d t dir ticks s).2.targetPos = s.targetPos := by
  obtain ⟨tr, nw, nr, hst⟩ := MoveFocuser_state d t (relTarget s dir ticks).toNat s
  have hA : MoveAbsFocuser d t (relTarget s dir ticks).toNat s =
      (if (MoveFocuser d t (relTarget s dir ticks).toNat s).1 = false
        then IPState.IPS_ALERT else IPState.IPS_BUSY,
       { (MoveFocuser d t (relTarget s dir ticks).toNat s).2 with
          targetPos := ((relTarget s dir ticks).toNat : Int) }) := by
    unfold MoveAbsFocuser
    dsimp only
    rw [Int.toNat_ofNat, MoveFocuser_targetPos]
    split_ifs <;> rfl
  have hR : MoveRelFocuser d t dir ticks s =
      (if (MoveFocuser d t (relTarget s dir ticks).toNat s).1 = false
        then IPState.IPS_ALERT else IPState.IPS_BUSY,
       (MoveFocuser d t (relTarget s dir ticks).toNat s).2) := by
    unfold MoveRelFocuser
    dsimp only
    split_ifs <;> rfl
  rw [hA, hR]
  refine ⟨rfl, rfl, rfl, ?_⟩
  dsimp only
  rw [hst]

/-! ## Timed moves -/

/-- The timed move returns Busy whatever happens on the port. -/
theorem MoveFocuserTimed_always_busy (d : Dialect) (t : Tty) (dir : FocusDirection)
    (speed : Int) (duration : Nat) (s : Driver) :
    (MoveFocuserTimed d t dir speed duration s).1 = IPState.IPS_BUSY := by
  rfl

/-- Claim C12, the code at the failing input: on a line where every write
fails, the move command issued by the timed move fails (`MoveFocuser` returns
false after one failed write), and the timed move still returns Busy and not
Alert. -/
theorem MoveFocuserTimed_busy_on_failure :
    (MoveFocuser Dialect.bracket ttyDead 0 (initDriver 60000)).1 = false ∧
    newOps (initDriver 60000)
      (MoveFocuserTimed Dialect.bracket ttyDead FocusDirection.FOCUS_INWARD 0 1000
        (initDriver 60000)).2 = [TtyOp.flush, TtyOp.write "<STAR000000>"] ∧
    (MoveFocuserTimed Dialect.bracket ttyDead FocusDirection.FOCUS_INWARD 0 1000
      (initDriver 60000)).1 = IPState.IPS_BUSY := by
  decide

/-! ## Abort -/

theorem AbortFocuser_eq (d : Dialect) (t : Tty) (s : Driver) :
    AbortFocuser d t s =
      (t.writeOk s.nWrites,
       { s with trace := s.trace ++ [TtyOp.flush, TtyOp.write d.abort],
                nWrites := s.nWrites + 1 }) := by
  unfold AbortFocuser
  cases hw : t.writeOk s.nWrites
  · rw [sendCommand_write_fail t _ _ s hw]
  · rw [sendCommand_noRes t _ s hw]

/-- Claim C13: in every driver state `AbortFocuser` writes the abort command
exactly once (after a flush), makes no read, returns true exactly when that
write succeeds, and changes nothing in the driver but the record of port
operations: connection, position, `lastPos`, target and the motion states are
as before. -/
theorem AbortFocuser_frame (d : Dialect) (t : Tty) (s : Driver) :
    newOps s (AbortFocuser d t s).2 = [TtyOp.flush, TtyOp.write d.abort] ∧
    writtenCmds (newOps s (AbortFocuser d t s).2) = [d.abort] ∧
    readCount (newOps s (AbortFocuser d t s).2) = 0 ∧
    ((AbortFocuser d t s).1 = true ↔ t.writeOk s.nWrites = true) ∧
    (AbortFocuser d t s).2 =
      { s with trace := s.trace ++ [TtyOp.flush, TtyOp.write d.abort],
               nWrites := s.nWrites + 1 } ∧
    (AbortFocuser d t s).2.connected = s.connected ∧
    (AbortFocuser d t s).2.absPos = s.absPos ∧
    (AbortFocuser d t s).2.lastPos = s.lastPos ∧
    (AbortFocuser d t s).2.targetPos = s.targetPos ∧
    (AbortFocuser d t s).2.absS = s.absS ∧
    (AbortFocuser d t s).2.relS = s.relS := by
  have hops := newOps_append s (AbortFocuser d t s).2 [TtyOp.flush, TtyOp.write d.abort]
    (by rw [AbortFocuser_eq])
  rw [hops, AbortFocuser_eq]
  exact ⟨rfl, rfl, rfl, Iff.rfl, rfl, rfl, rfl, rfl, rfl, rfl, rfl⟩

/-! ## Pending timed-move callbacks -/

theorem MoveAbsFocuser_timers (d : Dialect) (t : Tty) (target : Nat) (s : Driver) :
    (MoveAbsFocuser d t target s).2.timers = s.timers := by
  obtain ⟨tr, nw, nr, h⟩ := MoveFocuser_state d t target { s with targetPos := (target : Int) }
  unfold MoveAbsFocuser
  dsimp only
  rw [Int.toNat_ofNat]
  split_ifs <;> rw [h]

/-- Claim C17: a timed `MoveFocuser` adds one pending one-shot callback and
removes none; `MoveAbsFocuser`, `MoveRelFocuser`, `SyncFocuser` and
`AbortFocuser` leave the pending callbacks as they are; hence after a timed
move followed by an absolute move the callback of the timed move is still
pending, and when it runs it writes the abort command and sets the three
states to Idle. -/
theorem timed_callback_never_cancelled (d : Dialect) (t : Tty) (dir : FocusDirection)
    (speed : Int) (duration target ticks : Nat) (s : Driver) :
    (MoveFocuserTimed d t dir speed duration s).2.timers = s.timers ++ [duration] ∧
    (MoveAbsFocuser d t target s).2.timers = s.timers ∧
    (MoveRelFocuser d t dir ticks s).2.timers = s.timers ∧
    (SyncFocuser d t ticks s).2.timers = s.timers ∧
    (AbortFocuser d t s).2.timers = s.timers ∧
    duration ∈ (MoveAbsFocuser d t target (MoveFocuserTimed d t dir speed duration s).2).2.timers ∧
    writtenCmds (newOps (MoveAbsFocuser d t target (MoveFocuserTimed d t dir speed duration s).2).2
      (timedMoveCallback d t
        (MoveAbsFocuser d t target (MoveFocuserTimed d t dir speed duration s).2).2)) =
      [d.abort] ∧
    (timedMoveCallback d t
      (MoveAbsFocuser d t target (MoveFocuserTimed d t dir speed duration s).2).2).absS =
      IPState.IPS_IDLE ∧
    (timedMoveCallback d t
      (MoveAbsFocuser d t target (MoveFocuserTimed d t dir speed duration s).2).2).relS =
      IPState.IPS_IDLE ∧
    (timedMoveCallback d t
      (MoveAbsFocuser d t target (MoveFocuserTimed d t dir speed duration s).2).2).timerS =
      IPState.IPS_IDLE := by
  have hT : (MoveFocuserTimed d t dir speed duration s).2.timers = s.timers ++ [duration] := by
    obtain ⟨tr, nw, nr, h0⟩ := MoveFocuser_state d t 0 s
    obtain ⟨tr2, nw2, nr2, h1⟩ := MoveFocuser_state d t (toUInt32 s.maxPos) s
    unfold MoveFocuserTimed
    dsimp only
    split_ifs
    · rw [h0]
    · rw [h1]
  have hR : (MoveRelFocuser d t dir ticks s).2.timers = s.timers := by
    obtain ⟨tr, nw, nr, h⟩ := MoveFocuser_state d t (relTarget s dir ticks).toNat s
    unfold MoveRelFocuser
    dsimp only
    split_ifs <;> rw [h]
  have hS : (SyncFocuser d t ticks s).2.timers = s.timers := by
    obtain ⟨tr, nw, nr, h⟩ := sendCommand_state t (d.sync ticks) false s
    unfold SyncFocuser
    dsimp only
    rw [h]
  have hC : ∀ x : Driver,
      writtenCmds (newOps x (timedMoveCallback d t x)) = [d.abort] ∧
      (timedMoveCallback d t x).absS = IPState.IPS_IDLE ∧
      (timedMoveCallback d t x).relS = IPState.IPS_IDLE ∧
      (timedMoveCallback d t x).timerS = IPState.IPS_IDLE := by
    intro x
    have hops : newOps x (timedMoveCallback d t x) = [TtyOp.flush, TtyOp.write d.abort] := by
      apply newOps_append
      cases d <;> simp [timedMoveCallback, AbortFocuser_eq]
    rw [hops]
    refine ⟨rfl, ?_, ?_, ?_⟩ <;> cases d <;> simp [timedMoveCallback]
  refine ⟨hT, MoveAbsFocuser_timers d t target s, hR, hS, by rw [AbortFocuser_eq], ?_, hC _⟩
  rw [MoveAbsFocuser_timers, hT]
  simp

/-! ## Relative moves: the exact position commanded -/

theorem toInt32_id (x : Int) (hlo : -(2 : Int) ^ 31 ≤ x) (hhi : x < (2 : Int) ^ 31) :
    toInt32 x = x := by
  unfold toInt32
  rw [if_pos ⟨hlo, hhi⟩]

/-- Claim C18: for every cached position between 0 and the configured maximum
`FocusAbsPosN[0].max` (itself an `int32_t` value) and every delta such that
position plus delta fits in an `int32_t`, the first command `MoveRelFocuser`
writes is the set-target command for `min(max, position + delta)` on an outward
move and for `max(0, position - delta)` on an inward move; the device-reported
`FocusMaxPosN[0].value` plays no part. -/
theorem MoveRelFocuser_exact (d : Dialect) (t : Tty) (dir : FocusDirection) (ticks : Nat)
    (s : Driver) (h0 : 0 ≤ s.absPos) (h1 : s.absPos ≤ s.absMax)
    (h2 : s.absMax < (2 : Int) ^ 31) (h3 : s.absPos + (ticks : Int) < (2 : Int) ^ 31) :
    ∃ rest, newOps s (MoveRelFocuser d t dir ticks s).2 =
      TtyOp.flush ::
        TtyOp.write (d.setTarget
          (if dir = FocusDirection.FOCUS_INWARD then max 0 (s.absPos - (ticks : Int))
           else min s.absMax (s.absPos + (ticks : Int))).toNat) :: rest := by
  have hrel : relTarget s dir ticks =
      (if dir = FocusDirection.FOCUS_INWARD then max 0 (s.absPos - (ticks : Int))
       else min s.absMax (s.absPos + (ticks : Int))) := by
    have hp : (2 : Int) ^ 31 = 2147483648 := by norm_num
    rw [hp] at h2 h3
    unfold relTarget
    dsimp only
    rw [toInt32_id s.absMax (by rw [hp]; omega) (by rw [hp]; omega)]
    by_cases hd : dir = FocusDirection.FOCUS_INWARD
    · rw [if_pos hd, if_pos hd,
        toInt32_id (s.absPos - (ticks : Int)) (by rw [hp]; omega) (by rw [hp]; omega)]
      rw [min_eq_right (by omega)]
    · rw [if_neg hd, if_neg hd,
        toInt32_id (s.absPos + (ticks : Int)) (by rw [hp]; omega) (by rw [hp]; omega)]
      exact max_eq_right (le_min (by omega) (by omega))
  obtain ⟨rest, h⟩ := MoveFocuser_trace d t (relTarget s dir ticks).toNat s
  refine ⟨rest, ?_⟩
  rw [← hrel]
  apply newOps_append
  unfold MoveRelFocuser
  dsimp only
  split_ifs <;> exact h

/-- From position 50000 with the maximum 100000 an outward move of 70000 ticks
is commanded as 100000, whatever maximum position the device reported (here 60000). -/
theorem MoveRelFocuser_exact_witness :
    ∃ rest, newOps (initDriver 60000)
        (MoveRelFocuser Dialect.bracket (ttyAnswering "[1]") FocusDirection.FOCUS_OUTWARD 70000
          (initDriver 60000)).2 =
      TtyOp.flush ::
        TtyOp.write (Dialect.bracket.setTarget
          (if FocusDirection.FOCUS_OUTWARD = FocusDirection.FOCUS_INWARD
           then max 0 ((initDriver 60000).absPos - ((70000 : Nat) : Int))
           else min (initDriver 60000).absMax
             ((initDriver 60000).absPos + ((70000 : Nat) : Int))).toNat) :: rest :=
  MoveRelFocuser_exact Dialect.bracket (ttyAnswering "[1]") FocusDirection.FOCUS_OUTWARD 70000
    (initDriver 60000) (by decide) (by decide) (by decide) (by decide)

/-! ## Poll tick: `lastPos` follows the position -/

theorem pollPosition_close (d : Dialect) (t : Tty) (s : Driver)
    (hr : (readPosition d t s).1 = true) :
    |(pollPosition d t s).lastPos - (pollPosition d t s).absPos| ≤ 5 := by
  unfold pollPosition
  dsimp only
  split_ifs with h
  · simp
  · have h5 : ¬ 5 < |(readPosition d t s).2.lastPos - (readPosition d t s).2.absPos| :=
      fun hh => h ⟨hr, hh⟩
    exact not_lt.1 h5

theorem pollMotion_close (d : Dialect) (t : Tty) (x : Driver)
    (hx : |x.lastPos - x.absPos| ≤ 5) :
    |(pollMotion d t x).lastPos - (pollMotion d t x).absPos| ≤ 5 := by
  obtain ⟨tr, nw, nr, h⟩ := isMoving_state d t x
  unfold pollMotion
  dsimp only
  split_ifs
  · simp
  · rw [h]; exact hx
  · exact hx

/-- Claim C19: after every connected `TimerHit` in which the position query
succeeded and parsed, `lastPos` is within 5 ticks of the cached position,
whatever `lastPos` and the motion states were before the tick; and a position
more than 5 ticks away from the old `lastPos` is notified in that very tick. -/
theorem TimerHit_lastPos_close (d : Dialect) (t : Tty) (s : Driver)
    (hc : s.connected = true) (hr : (readPosition d t s).1 = true) :
    |(TimerHit d t s).lastPos - (TimerHit d t s).absPos| ≤ 5 ∧
    (5 < |s.lastPos - (readPosition d t s).2.absPos| →
      Property.FocusAbsPosNP ∈ emitted s (TimerHit d t s)) := by
  have hT : TimerHit d t s =
      { pollMotion d t (pollPosition d t s) with
          polls := (pollMotion d t (pollPosition d t s)).polls + 1 } := by
    unfold TimerHit
    simp [hc]
  constructor
  · rw [hT]
    exact pollMotion_close d t _ (pollPosition_close d t s hr)
  · intro h5
    have h1 := pollPosition_notes d t s
    have h2 := pollMotion_notes d t (pollPosition d t s)
    rw [if_pos ⟨hr, h5⟩] at h1
    have hn : (TimerHit d t s).notes = s.notes ++ ([Property.FocusAbsPosNP] ++
        (if ((pollPosition d t s).absS = IPState.IPS_BUSY ∨
              (pollPosition d t s).relS = IPState.IPS_BUSY) ∧
            (isMoving d t (pollPosition d t s)).1 = false
         then [Property.FocusAbsPosNP, Property.FocusRelPosNP] else [])) := by
      rw [hT]
      dsimp only
      rw [h2, h1, List.append_assoc]
    rw [emitted_append s (TimerHit d t s) _ hn]
    simp

/-- A tick in which the device reports 50003 while `lastPos` is 50000. -/
theorem TimerHit_lastPos_close_witness :
    |(TimerHit Dialect.bracket (ttyAnswering "[50003]")
        { initDriver 60000 with lastPos := 50000 }).lastPos -
      (TimerHit Dialect.bracket (ttyAnswering "[50003]")
        { initDriver 60000 with lastPos := 50000 }).absPos| ≤ 5 :=
  (TimerHit_lastPos_close Dialect.bracket (ttyAnswering "[50003]")
    { initDriver 60000 with lastPos := 50000 } (by decide) (by decide)).1

/-! ## Poll tick: the port operations and the motion states -/

theorem writtenCmds_append (a b : List TtyOp) :
    writtenCmds (a ++ b) = writtenCmds a ++ writtenCmds b := by
  induction a with
  | nil => rfl
  | cons x l ih => cases x <;> simp [writtenCmds, ih]

/-- One `sendCommand` appends operations among which the only write is the command. -/
theorem sendCommand_written (t : Tty) (cmd : String) (w : Bool) (s : Driver) :
    ∃ l, (sendCommand t cmd w s).2.2.trace = s.trace ++ l ∧ writtenCmds l = [cmd] := by
  unfold sendCommand
  by_cases h1 : t.writeOk s.nWrites = false
  · simp only [h1, if_true]; exact ⟨_, rfl, rfl⟩
  · by_cases h2 : w = false
    · simp only [h1, h2, if_true, if_false]; exact ⟨_, rfl, rfl⟩
    · simp only [h1, h2, if_false]
      cases t.readRes s.nReads
      · exact ⟨[TtyOp.flush, TtyOp.write cmd, TtyOp.read], by simp, rfl⟩
      · exact ⟨[TtyOp.flush, TtyOp.write cmd, TtyOp.read, TtyOp.flush], by simp, rfl⟩

theorem readPosition_trace (d : Dialect) (t : Tty) (s : Driver) :
    (readPosition d t s).2.trace = (sendCommand t d.getPos true s).2.2.trace := by
  unfold readPosition
  dsimp only
  split_ifs
  · rfl
  · cases sscanfInt d.lead (sendCommand t d.getPos true s).2.1 <;> rfl

theorem pollPosition_trace (d : Dialect) (t : Tty) (s : Driver) :
    (pollPosition d t s).trace = (sendCommand t d.getPos true s).2.2.trace := by
  rw [← readPosition_trace]
  unfold pollPosition
  dsimp only
  split_ifs <;> rfl

theorem isMoving_trace (d : Dialect) (t : Tty) (s : Driver) :
    (isMoving d t s).2.trace = (sendCommand t d.getMoving true s).2.2.trace := by
  unfold isMoving
  dsimp only
  split_ifs <;> rfl

theorem pollMotion_trace (d : Dialect) (t : Tty) (x : Driver) :
    (pollMotion d t x).trace =
      (if x.absS = IPState.IPS_BUSY ∨ x.relS = IPState.IPS_BUSY
       then (sendCommand t d.getMoving true x).2.2.trace else x.trace) := by
  rw [← isMoving_trace]
  unfold pollMotion
  dsimp only
  split_ifs <;> rfl

/-- The commands a connected `TimerHit` writes: the position query, followed
by the is-moving query exactly when a move is pending. -/
theorem TimerHit_written (d : Dialect) (t : Tty) (s : Driver) (hc : s.connected = true) :
    writtenCmds (newOps s (TimerHit d t s)) =
      d.getPos :: (if s.absS = IPState.IPS_BUSY ∨ s.relS = IPState.IPS_BUSY
                   then [d.getMoving] else []) := by
  obtain ⟨l1, h1, w1⟩ := sendCommand_written t d.getPos true s
  obtain ⟨l2, h2, w2⟩ := sendCommand_written t d.getMoving true (pollPosition d t s)
  obtain ⟨ha, hr⟩ := pollPosition_states d t s
  have hT : (TimerHit d t s).trace = (pollMotion d t (pollPosition d t s)).trace := by
    unfold TimerHit
    simp [hc]
  have hp := pollPosition_trace d t s
  have hm := pollMotion_trace d t (pollPosition d t s)
  rw [ha, hr] at hm
  by_cases hb : s.absS = IPState.IPS_BUSY ∨ s.relS = IPState.IPS_BUSY
  · rw [if_pos hb] at hm ⊢
    rw [newOps_append s (TimerHit d t s) (l1 ++ l2)
      (by rw [hT, hm, h2, hp, h1, List.append_assoc])]
    rw [writtenCmds_append, w1, w2]
    rfl
  · rw [if_neg hb] at hm ⊢
    rw [newOps_append s (TimerHit d t s) l1 (by rw [hT, hm, hp, h1])]
    exact w1

theorem getMoving_ne (d : Dialect) : d.getMoving ≠ d.getPos ∧ d.movingYes ≠ d.movingNo := by
  cases d <;> decide

theorem getMax_ne (d : Dialect) : d.getMax ≠ d.getPos ∧ d.getMax ≠ d.getMoving := by
  cases d <;> decide

theorem TimerHit_eq (d : Dialect) (t : Tty) (s : Driver) (hc : s.connected = true) :
    TimerHit d t s =
      { pollMotion d t (pollPosition d t s) with
          polls := (pollMotion d t (pollPosition d t s)).polls + 1 } := by
  unfold TimerHit
  simp [hc]

/-- The second block of a connected `TimerHit` as a function of the buffer
read for the is-moving query: (1) if the absolute- or relative-position state
is Busy and the buffer is exactly the text `not moving` of the variant, both
states become Ok and `lastPos` is set to the cached position; (2) if the
buffer is exactly the text `moving` of the variant, both states are as before;
(3) if neither state is Busy, the only command written is the position query,
and both states are as before.  In the bracket variant the two texts `[0]` and
`[1]` are buffers the read delivers; in the parenthesis variant the texts
`(0)` and `(1)` are not (see `paren_texts_not_delivered`). -/
theorem TimerHit_motion (d : Dialect) (t : Tty) (s : Driver) (hc : s.connected = true) :
    ((s.absS = IPState.IPS_BUSY ∨ s.relS = IPState.IPS_BUSY) →
      t.writeOk (pollPosition d t s).nWrites = true →
      t.readRes (pollPosition d t s).nReads = some d.movingNo →
        (TimerHit d t s).absS = IPState.IPS_OK ∧ (TimerHit d t s).relS = IPState.IPS_OK ∧
        (TimerHit d t s).lastPos = (TimerHit d t s).absPos) ∧
    ((s.absS = IPState.IPS_BUSY ∨ s.relS = IPState.IPS_BUSY) →
      t.writeOk (pollPosition d t s).nWrites = true →
      t.readRes (pollPosition d t s).nReads = some d.movingYes →
        (TimerHit d t s).absS = s.absS ∧ (TimerHit d t s).relS = s.relS) ∧
    (¬ (s.absS = IPState.IPS_BUSY ∨ s.relS = IPState.IPS_BUSY) →
      writtenCmds (newOps s (TimerHit d t s)) = [d.getPos] ∧
      d.getMoving ∉ writtenCmds (newOps s (TimerHit d t s)) ∧
      (TimerHit d t s).absS = s.absS ∧ (TimerHit d t s).relS = s.relS) := by
  obtain ⟨ha, hr⟩ := pollPosition_states d t s
  obtain ⟨hne, hyn⟩ := getMoving_ne d
  have hT := TimerHit_eq d t s hc
  refine ⟨fun hb hw hrd => ?_, fun hb hw hrd => ?_, fun hb => ?_⟩
  · have hb2 : (pollPosition d t s).absS = IPState.IPS_BUSY ∨
        (pollPosition d t s).relS = IPState.IPS_BUSY := by rw [ha, hr]; exact hb
    have hm : (isMoving d t (pollPosition d t s)).1 = false := by
      unfold isMoving
      rw [sendCommand_read_ok t _ _ d.movingNo hw hrd]
      simp [Ne.symm hyn]
    rw [hT]
    unfold pollMotion
    dsimp only
    rw [if_pos hb2, if_pos hm]
    exact ⟨rfl, rfl, rfl⟩
  · have hb2 : (pollPosition d t s).absS = IPState.IPS_BUSY ∨
        (pollPosition d t s).relS = IPState.IPS_BUSY := by rw [ha, hr]; exact hb
    obtain ⟨tr, nw, nr, hst⟩ := isMoving_state d t (pollPosition d t s)
    have hm : (isMoving d t (pollPosition d t s)).1 = true := by
      unfold isMoving
      rw [sendCommand_read_ok t _ _ d.movingYes hw hrd]
      simp
    rw [hT]
    unfold pollMotion
    dsimp only
    rw [if_pos hb2, if_neg (by rw [hm]; simp), hst]
    exact ⟨ha, hr⟩
  · have hw := TimerHit_written d t s hc
    rw [if_neg hb] at hw
    have hb2 : ¬ ((pollPosition d t s).absS = IPState.IPS_BUSY ∨
        (pollPosition d t s).relS = IPState.IPS_BUSY) := by rw [ha, hr]; exact hb
    refine ⟨hw, ?_, ?_, ?_⟩
    · rw [hw]; simpa using hne
    · rw [hT]; unfold pollMotion; dsimp only; rw [if_neg hb2]; exact ha
    · rw [hT]; unfold pollMotion; dsimp only; rw [if_neg hb2]; exact hr

set_option maxRecDepth 8000 in
/-- A tick during a pending move in which the device reports the position
50000 and then answers `[0]`: both states become Ok. -/
theorem TimerHit_motion_witness :
    (TimerHit Dialect.bracket (ttyAnswering2 "[50000]" "[0]")
      { initDriver 60000 with absS := IPState.IPS_BUSY }).absS = IPState.IPS_OK ∧
    (TimerHit Dialect.bracket (ttyAnswering2 "[50000]" "[0]")
      { initDriver 60000 with absS := IPState.IPS_BUSY }).relS = IPState.IPS_OK ∧
    (TimerHit Dialect.bracket (ttyAnswering2 "[50000]" "[0]")
      { initDriver 60000 with absS := IPState.IPS_BUSY }).lastPos =
    (TimerHit Dialect.bracket (ttyAnswering2 "[50000]" "[0]")
      { initDriver 60000 with absS := IPState.IPS_BUSY }).absPos :=
  (TimerHit_motion Dialect.bracket (ttyAnswering2 "[50000]" "[0]")
    { initDriver 60000 with absS := IPState.IPS_BUSY } (by decide)).1
    (by decide) (by decide) (by decide)

/-! ## Poll tick on a failing line -/

set_option maxRecDepth 8000 in
/-- Claim C15, the code at the failing input: with a move pending (state Busy),
cached position 50000 and `lastPos` 0, a connected `TimerHit` during which
every write fails sets both motion states to Ok, moves `lastPos` to 50000 and
notifies both position properties, because `isMoving` returns false when its
command fails. -/
theorem TimerHit_failed_poll_ends_move :
    (TimerHit Dialect.bracket ttyDead
      { initDriver 60000 with absS := IPState.IPS_BUSY }).absS = IPState.IPS_OK ∧
    (TimerHit Dialect.bracket ttyDead
      { initDriver 60000 with absS := IPState.IPS_BUSY }).relS = IPState.IPS_OK ∧
    (TimerHit Dialect.bracket ttyDead
      { initDriver 60000 with absS := IPState.IPS_BUSY }).lastPos = 50000 ∧
    ({ initDriver 60000 with absS := IPState.IPS_BUSY } : Driver).lastPos = 0 ∧
    ({ initDriver 60000 with absS := IPState.IPS_BUSY } : Driver).relS = IPState.IPS_IDLE ∧
    emitted { initDriver 60000 with absS := IPState.IPS_BUSY }
      (TimerHit Dialect.bracket ttyDead
        { initDriver 60000 with absS := IPState.IPS_BUSY }) =
      [Property.FocusAbsPosNP, Property.FocusRelPosNP] ∧
    newOps { initDriver 60000 with absS := IPState.IPS_BUSY }
      (TimerHit Dialect.bracket ttyDead
        { initDriver 60000 with absS := IPState.IPS_BUSY }) =
      [TtyOp.flush, TtyOp.write "<GPOS>", TtyOp.flush, TtyOp.write "<GMOV>"] := by
  decide

/-- When no move is pending, a connected `TimerHit` whose position query fails
on the write leaves position, `lastPos` and both motion states as they were. -/
theorem TimerHit_failed_poll_idle (d : Dialect) (t : Tty) (s : Driver)
    (hc : s.connected = true) (hw : t.writeOk s.nWrites = false)
    (hb : ¬ (s.absS = IPState.IPS_BUSY ∨ s.relS = IPState.IPS_BUSY)) :
    (TimerHit d t s).absPos = s.absPos ∧ (TimerHit d t s).lastPos = s.lastPos ∧
    (TimerHit d t s).absS = s.absS ∧ (TimerHit d t s).relS = s.relS := by
  have hp : pollPosition d t s =
      { s with trace := s.trace ++ [TtyOp.flush, TtyOp.write d.getPos],
               nWrites := s.nWrites + 1 } := by
    unfold pollPosition readPosition
    rw [sendCommand_write_fail t _ _ s hw]
    simp
  rw [TimerHit_eq d t s hc, hp]
  unfold pollMotion
  dsimp only
  rw [if_neg hb]
  exact ⟨rfl, rfl, rfl, rfl⟩

/-! ## Poll tick: what is refreshed -/

set_option maxRecDepth 8000 in
/-- Claim C16, as stated, fails: on a working line whose device answers every
query with `[70000]` (so that it reports the maximum position 70000 when
asked), a connected `TimerHit` writes the position query only, refreshes the
cached position to 70000 and leaves the cached maximum position at 60000. -/
theorem TimerHit_keeps_maxPos :
    writtenCmds (newOps (initDriver 60000)
      (TimerHit Dialect.bracket (ttyAnswering "[70000]") (initDriver 60000))) = ["<GPOS>"] ∧
    (TimerHit Dialect.bracket (ttyAnswering "[70000]") (initDriver 60000)).absPos = 70000 ∧
    (TimerHit Dialect.bracket (ttyAnswering "[70000]") (initDriver 60000)).maxPos = 60000 ∧
    (readMaxPosition Dialect.bracket (ttyAnswering "[70000]") (initDriver 60000)).2.maxPos =
      70000 := by
  decide

theorem pollMotion_frame (d : Dialect) (t : Tty) (x : Driver) :
    (pollMotion d t x).absPos = x.absPos ∧ (pollMotion d t x).maxPos = x.maxPos := by
  obtain ⟨tr, nw, nr, h⟩ := isMoving_state d t x
  unfold pollMotion
  dsimp only
  split_ifs <;> simp [h]

/-- Claim C16, amended: every connected `TimerHit` in which the position query
is written, answered and parsed refreshes the cached position, which after the
tick equals the position the device reported; the cached maximum position is
left as it was, and the tick writes the position query (and the is-moving
query when a move is pending) but no get-max-position query. -/
theorem TimerHit_refreshes_position_only (d : Dialect) (t : Tty) (s : Driver)
    (res : String) (p : Int) (hc : s.connected = true)
    (hw : t.writeOk s.nWrites = true) (hr : t.readRes s.nReads = some res)
    (hp : sscanfInt d.lead res = some p) :
    (TimerHit d t s).absPos = p ∧ (TimerHit d t s).maxPos = s.maxPos ∧
    d.getMax ∉ writtenCmds (newOps s (TimerHit d t s)) := by
  obtain ⟨hg1, hg2⟩ := getMax_ne d
  have hrp : readPosition d t s =
      (true, { s with trace := s.trace ++
                          [TtyOp.flush, TtyOp.write d.getPos, TtyOp.read, TtyOp.flush],
                      nWrites := s.nWrites + 1, nReads := s.nReads + 1, absPos := p }) := by
    unfold readPosition
    rw [sendCommand_read_ok t _ s res hw hr]
    simp [hp]
  have hpp : (pollPosition d t s).absPos = p ∧ (pollPosition d t s).maxPos = s.maxPos := by
    unfold pollPosition
    rw [hrp]
    dsimp only
    split_ifs <;> exact ⟨rfl, rfl⟩
  obtain ⟨hm1, hm2⟩ := pollMotion_frame d t (pollPosition d t s)
  refine ⟨?_, ?_, ?_⟩
  · rw [TimerHit_eq d t s hc]; exact hm1.trans hpp.1
  · rw [TimerHit_eq d t s hc]; exact hm2.trans hpp.2
  · rw [TimerHit_written d t s hc]
    split_ifs <;> simp [hg1, hg2]

set_option maxRecDepth 8000 in
/-- A tick in which the device reports 70000: the position becomes 70000, the
maximum position stays 60000. -/
theorem TimerHit_refreshes_position_only_witness :
    (TimerHit Dialect.bracket (ttyAnswering "[70000]") (initDriver 60000)).absPos = 70000 ∧
    (TimerHit Dialect.bracket (ttyAnswering "[70000]") (initDriver 60000)).maxPos =
      (initDriver 60000).maxPos ∧
    Dialect.bracket.getMax ∉ writtenCmds (newOps (initDriver 60000)
      (TimerHit Dialect.bracket (ttyAnswering "[70000]") (initDriver 60000))) :=
  TimerHit_refreshes_position_only Dialect.bracket (ttyAnswering "[70000]")
    (initDriver 60000) "[70000]" 70000 (by decide) (by decide) (by decide) (by decide)

/-! ## Properties defined over a connection cycle -/

set_option maxRecDepth 8000 in
/-- Claim C20, the code at the failing input: in the bracket variant, starting
with no driver-specific property defined, `updateProperties` on connection
defines calibration, stallguard threshold and move current, and
`updateProperties` on disconnection deletes calibration and move current only,
so the stallguard threshold stays defined after the cycle. -/
theorem updateProperties_leaves_stallguard :
    (initDriver 60000).defined = [] ∧
    (updateProperties Dialect.bracket (ttyAnswering "[50000]") (initDriver 60000)).2.defined =
      [Property.CalibrationSP, Property.StallguardThresNP, Property.MoveCurrentNP] ∧
    (updateProperties Dialect.bracket (ttyAnswering "[50000]")
      { (updateProperties Dialect.bracket (ttyAnswering "[50000]") (initDriver 60000)).2 with
          connected := false }).2.defined = [Property.StallguardThresNP] := by
  decide

/-! ## The calibration switch array of `initProperties` -/

/-- The accesses of `initProperties` to `CalibrationS` stay within an array
of two or more elements in the bracket variant, and of one or more elements in
the colon variant. -/
theorem initCalibration_in_bounds (arr : List ISwitch) :
    (2 ≤ arr.length → (initCalibration Dialect.bracket arr).isSome = true) ∧
    (1 ≤ arr.length → (initCalibration Dialect.colon arr).isSome = true) := by
  constructor
  · intro h2
    have h0 : CALIBRATION_START < arr.length := by unfold CALIBRATION_START; omega
    have h1 : CALIBRATION_RESET < arr.length := by unfold CALIBRATION_RESET; omega
    simp [initCalibration, IUFillSwitch, IUFillSwitchVector, h0, h1, h2]
  · intro h1
    have h0 : CALIBRATION_START < arr.length := by unfold CALIBRATION_START; omega
    simp [initCalibration, IUFillSwitch, IUFillSwitchVector, h0, h1]

/-- Claim C21, the code at the failing input: in the bracket variant the array
`CalibrationS` is declared with one element, the index `CALIBRATION_RESET` is
1 and the count registered for the switch vector is 2, so neither is within
the declared length and `initProperties` accesses `CalibrationS` outside the
array: filling the element `CALIBRATION_START` succeeds, filling the element
`CALIBRATION_RESET` does not. -/
theorem initProperties_out_of_bounds :
    CalibrationS_length = 1 ∧ CALIBRATION_START < CalibrationS_length ∧
    ¬ (CALIBRATION_RESET < CalibrationS_length) ∧ ¬ (2 ≤ CalibrationS_length) ∧
    (IUFillSwitch (List.replicate CalibrationS_length { name := "", label := "", s := false })
      CALIBRATION_START "CALIBRATION_START" "Start Calibration").isSome = true ∧
    IUFillSwitch (List.replicate CalibrationS_length { name := "", label := "", s := false })
      CALIBRATION_RESET "CALIBRATION_RESET" "Reset Calibration" = none ∧
    initProperties Dialect.bracket CalibrationS_length (initDriver 60000) = none := by
  decide

/-! ## Poll tick of the parenthesis variant: the is-moving answer -/

/-- The texts the bracket variant compares with are buffers its read delivers;
those the parenthesis variant compares with are not, since they lack the line
feed that ends every buffer of that variant. -/
theorem paren_texts_not_delivered :
    delivered OWLTO_DEL_bracket Dialect.bracket.movingYes = true ∧
    delivered OWLTO_DEL_bracket Dialect.bracket.movingNo = true ∧
    delivered OWLTO_DEL_paren Dialect.paren.movingYes = false ∧
    delivered OWLTO_DEL_paren Dialect.paren.movingNo = false := by
  decide

/-- In the parenthesis variant `isMoving` returns false on every buffer its
read can deliver, and on every failure. -/
theorem isMoving_paren_false (t : Tty) (s : Driver)
    (h : ∀ res, t.readRes s.nReads = some res → delivered OWLTO_DEL_paren res = true) :
    (isMoving Dialect.paren t s).1 = false := by
  unfold isMoving
  dsimp only
  cases hw : t.writeOk s.nWrites
  · rw [sendCommand_write_fail t _ _ s hw]; simp
  · cases hr : t.readRes s.nReads with
    | none => rw [sendCommand_read_fail t _ s hw hr]; simp
    | some res =>
      rw [sendCommand_read_ok t _ s res hw hr]
      have hd := h res hr
      have hne : res ≠ Dialect.paren.movingYes := by
        rintro rfl
        revert hd
        decide
      simp [hne]

/-- In the parenthesis variant a connected `TimerHit` with a move pending sets
both states to Ok whatever the device answers, as long as the buffers are
those its reads can deliver. -/
theorem TimerHit_paren_ends_move (t : Tty) (s : Driver) (hc : s.connected = true)
    (hb : s.absS = IPState.IPS_BUSY ∨ s.relS = IPState.IPS_BUSY)
    (h : ∀ k res, t.readRes k = some res → delivered OWLTO_DEL_paren res = true) :
    (TimerHit Dialect.paren t s).absS = IPState.IPS_OK ∧
    (TimerHit Dialect.paren t s).relS = IPState.IPS_OK := by
  obtain ⟨ha, hr⟩ := pollPosition_states Dialect.paren t s
  have hb2 : (pollPosition Dialect.paren t s).absS = IPState.IPS_BUSY ∨
      (pollPosition Dialect.paren t s).relS = IPState.IPS_BUSY := by rw [ha, hr]; exact hb
  have hm := isMoving_paren_false t (pollPosition Dialect.paren t s) (fun res => h _ res)
  rw [TimerHit_eq Dialect.paren t s hc]
  unfold pollMotion
  dsimp only
  rw [if_pos hb2, if_pos hm]
  exact ⟨rfl, rfl⟩

set_option maxRecDepth 8000 in
/-- Claim C14, the code at the failing input: in the parenthesis variant, with
the absolute-position state Busy, a connected `TimerHit` in which the device
reports the position 50000 and answers the is-moving query with `moving`
(the buffers read are `(50000)` and `(1)`, each ended by the line feed that
stops the read) gets false from `isMoving` and sets both states to Ok,
instead of leaving them as they were. -/
theorem TimerHit_paren_moving_ends_move :
    delivered OWLTO_DEL_paren "(50000)\n" = true ∧
    delivered OWLTO_DEL_paren "(1)\n" = true ∧
    ({ initDriver 60000 with absS := IPState.IPS_BUSY } : Driver).absS = IPState.IPS_BUSY ∧
    ({ initDriver 60000 with absS := IPState.IPS_BUSY } : Driver).relS = IPState.IPS_IDLE ∧
    (isMoving Dialect.paren (ttyAnswering "(1)\n")
      { initDriver 60000 with absS := IPState.IPS_BUSY }).1 = false ∧
    writtenCmds (newOps { initDriver 60000 with absS := IPState.IPS_BUSY }
      (TimerHit Dialect.paren (ttyAnswering2 "(50000)\n" "(1)\n")
        { initDriver 60000 with absS := IPState.IPS_BUSY })) = ["P:", "IM:"] ∧
    (TimerHit Dialect.paren (ttyAnswering2 "(50000)\n" "(1)\n")
      { initDriver 60000 with absS := IPState.IPS_BUSY }).absS = IPState.IPS_OK ∧
    (TimerHit Dialect.paren (ttyAnswering2 "(50000)\n" "(1)\n")
      { initDriver 60000 with absS := IPState.IPS_BUSY }).relS = IPState.IPS_OK := by
  decide

end Owlto
